import Mathlib

/-!
# adacon: the Adaura attenuator communication engine

A shallow embedding of `src/adacom.c` (with the constants and enums of
`src/adacom.h`) and the properties of its specification.

Modelling conventions

* The file-scope `static` variables of `adacom.c` become the fields of one
  record, `Engine`; every C function becomes a function on that record.
* `double` values are exact rationals (`ℚ`); `int` values are `Int`.
* The two `double[ADACOM_MAX_CHANNELS]` arrays are maps from an index to a
  value. The capacity is the separate constant `ADACOM_MAX_CHANNELS`; an
  access at an index outside `0 .. 15` is out of bounds in C.
* The functions of the `masc` library (strings, regular expressions, number
  parsing) are not part of the repository. They are the fields of the record
  `Masc`, and the engine is verified for every implementation of them.
  `refMasc` is one executable implementation for the wire grammar.
* What the engine does to the outside world (bytes written to the serial
  line, the serial line being opened or closed, a callback being invoked) is
  appended to the field `trace`. Callback bodies are client code; the clients
  of this repository (`src/main.c`) only read from the engine inside a
  callback, so an invocation leaves the engine state as it is.
-/

namespace Adacom

/-! ## Constants and enumerations (`adacom.h`, top of `adacom.c`) -/

def ADACOM_MAX_CHANNELS : Int := 16
def ADACOM_MIN_ATTENUATION : ℚ := 0
def ADACOM_MAX_ATTENUATION : ℚ := 95
def ADACOM_MIN_INTERVAL : ℚ := 1 / 4

inductive AdaComState
  | ADACOM_STATE_INITIALISED
  | ADACOM_STATE_CONNECTING
  | ADACOM_STATE_CONNECTED
  | ADACOM_STATE_DISCONNECTED
  | ADACOM_STATE_ERROR
  | ADACOM_STATE_UNKNOWN
  deriving DecidableEq

inductive AdaComError
  | ADACOM_OK
  | ADACOM_ERR_NOT_CONNECTED
  | ADACOM_ERR_DEVICE_NOT_FOUND
  | ADACOM_ERR_DEVICE_NOT_SUPPORTED
  | ADACOM_ERR_DEVICE_NOT_AVAILABLE
  | ADACOM_ERR_DEVICE_BUSY
  | ADACOM_ERR_INVALID_CHANNEL
  | ADACOM_ERR_INVALID_ATTENUATION
  | ADACOM_ERR_NUM_CHANNELS
  | ADACOM_ERR_CMD_TIMEOUTED
  | ADACOM_ERR_UNKONWN
  deriving DecidableEq

inductive ConnectionStep
  | CONN_STEP_GET_INFOS
  | CONN_STEP_GET_STATUS
  | CONN_STEP_UNKNOWN
  deriving DecidableEq

inductive CommandId
  | COMMAND_NONE
  | COMMAND_SET
  | COMMAND_SET_ALL
  | COMMAND_SAA
  | COMMAND_RESET
  | COMMAND_UNKNOWN
  deriving DecidableEq

open AdaComState AdaComError ConnectionStep CommandId

/-- The enumerator of `AdaComError` with a given integer value (C enums count
from zero in declaration order); used where the source passes an integer
expression for an `AdaComError` parameter. -/
def AdaComError.ofInt (n : Int) : AdaComError :=
  if n = 0 then ADACOM_OK
  else if n = 1 then ADACOM_ERR_NOT_CONNECTED
  else if n = 2 then ADACOM_ERR_DEVICE_NOT_FOUND
  else if n = 3 then ADACOM_ERR_DEVICE_NOT_SUPPORTED
  else if n = 4 then ADACOM_ERR_DEVICE_NOT_AVAILABLE
  else if n = 5 then ADACOM_ERR_DEVICE_BUSY
  else if n = 6 then ADACOM_ERR_INVALID_CHANNEL
  else if n = 7 then ADACOM_ERR_INVALID_ATTENUATION
  else if n = 8 then ADACOM_ERR_NUM_CHANNELS
  else if n = 9 then ADACOM_ERR_CMD_TIMEOUTED
  else ADACOM_ERR_UNKONWN

/-- The value of `false` from `<stdbool.h>`. -/
def c_false : Int := 0

/-! ## The `masc` library boundary -/

/-- The functions of the external `masc` library that `adacom.c` calls on
strings. `regex_search pattern text` is the result of searching `text` for
`pattern`: `none` for no match, otherwise the two capture groups (both
patterns of `adacom.c` have exactly two). `str_to_int` and `str_to_double`
are the strict conversions, `none` standing for the `NULL` result. -/
structure Masc where
  str_strip : String → String
  str_startswith : String → String → Bool
  str_split : String → String → Int → List String
  regex_search : String → String → Option (String × String)
  str_to_int : String → Option Int
  str_to_double : String → Option ℚ

/-- The pattern compiled into `regex_channel` by `adacom_init`. -/
def regex_channel : String := "Channel\\s+([0-9]+):\\s+(.+)"

/-- The pattern compiled into `regex_set_resp` by `adacom_init`. -/
def regex_set_resp : String := "Channel\\s+([0-9]+).+set to\\s+(.+)"

/-! ## A reference implementation of the `masc` boundary

Executable string functions for the wire grammar of the device (lines such as
`Model: X`, `Channel 1: 10.00`, `Channel 1 set to 5.00`). The regular
expressions are matched by hand-written backtracking matchers for the two
patterns of `adacom_init`. -/

def is_space (c : Char) : Bool :=
  c = ' ' || c = '\t' || c = '\n' || c = '\r'

def ref_strip (s : String) : String :=
  String.mk ((s.toList.dropWhile is_space).reverse.dropWhile is_space).reverse

def ref_startswith (s p : String) : Bool :=
  p.toList.isPrefixOf s.toList

/-- Splitting at a separator: `limit` is the number of parts still allowed
(`none` for no bound), `skip` the separator characters still to drop, `acc`
the current part in reverse. -/
def split_go (sep : List Char) : Option Nat → Nat → List Char → List Char → List String
  | _, _, acc, [] => [String.mk acc.reverse]
  | limit, skip + 1, acc, _ :: cs => split_go sep limit skip acc cs
  | limit, 0, acc, c :: cs =>
    if limit ≠ some 1 ∧ sep ≠ [] ∧ sep.isPrefixOf (c :: cs) = true then
      String.mk acc.reverse :: split_go sep (limit.map (fun n => n - 1)) (sep.length - 1) [] cs
    else split_go sep limit 0 (c :: acc) cs

def ref_split (s sep : String) (max : Int) : List String :=
  split_go sep.toList (if max ≤ 0 then none else some max.toNat) 0 [] s.toList

/-- The first position of a text, from the left, at which `f` succeeds. -/
def search_first (f : List Char → Option α) : List Char → Option α
  | [] => none
  | c :: cs =>
    match f (c :: cs) with
    | some v => some v
    | none => search_first f cs

/-- The last position of a text at which `f` succeeds. -/
def search_last (f : List Char → Option α) : List Char → Option α
  | [] => none
  | c :: cs =>
    match search_last f cs with
    | some v => some v
    | none => f (c :: cs)

/-- The part `\s+(.+)` at the start of a text. -/
def match_value (cs : List Char) : Option String :=
  match cs.span is_space with
  | (ws, v) => if ws = [] ∨ v = [] then none else some (String.mk v)

/-- The pattern `Channel\s+([0-9]+):\s+(.+)` at the start of a text. -/
def match_channel_here (cs : List Char) : Option (String × String) :=
  if "Channel".toList.isPrefixOf cs then
    match (cs.drop 7).span is_space with
    | (ws, r) =>
      match r.span Char.isDigit with
      | (ds, ':' :: r2) =>
        if ws = [] ∨ ds = [] then none
        else (match_value r2).map (fun v => (String.mk ds, v))
      | _ => none
  else none

/-- The part `set to\s+(.+)` at the start of a text. -/
def match_set_to (cs : List Char) : Option String :=
  if "set to".toList.isPrefixOf cs then match_value (cs.drop 6) else none

/-- The part `([0-9]+).+set to\s+(.+)` on a run of digits `ds` followed by
`r`: the longest prefix of the digits, of at most `k` of them, that leaves
at least one character before the last `set to`. -/
def match_digits_then (ds r : List Char) : Nat → Option (String × String)
  | 0 => none
  | k + 1 =>
    match ds.drop (k + 1) ++ r with
    | [] => match_digits_then ds r k
    | _ :: rest =>
      match search_last match_set_to rest with
      | some v => some (String.mk (ds.take (k + 1)), v)
      | none => match_digits_then ds r k

/-- The pattern `Channel\s+([0-9]+).+set to\s+(.+)` at the start of a text. -/
def match_set_resp_here (cs : List Char) : Option (String × String) :=
  if "Channel".toList.isPrefixOf cs then
    match (cs.drop 7).span is_space with
    | (ws, r) =>
      match r.span Char.isDigit with
      | (ds, r2) => if ws = [] then none else match_digits_then ds r2 ds.length
  else none

def ref_regex_search (pattern text : String) : Option (String × String) :=
  if pattern = regex_channel then search_first match_channel_here text.toList
  else if pattern = regex_set_resp then search_first match_set_resp_here text.toList
  else none

/-- The value of a run of decimal digits; `none` when the run is empty or
holds another character. -/
def digits_value : List Char → Option Nat
  | [] => none
  | cs =>
    cs.foldl (fun acc c => acc.bind (fun n =>
      if c.isDigit then some (n * 10 + (c.toNat - 48)) else none)) (some 0)

def ref_to_int (s : String) : Option Int :=
  match s.toList with
  | '-' :: cs => (digits_value cs).map (fun n => -(n : Int))
  | cs => (digits_value cs).map (fun n => (n : Int))

/-- An unsigned decimal number `123` or `123.45`. -/
def decimal_value (cs : List Char) : Option ℚ :=
  match cs.span (fun c => c != '.') with
  | (a, []) => (digits_value a).map (fun n => (n : ℚ))
  | (a, _ :: b) => (digits_value (a ++ b)).map (fun n => (n : ℚ) / (10 : ℚ) ^ b.length)

def ref_to_double (s : String) : Option ℚ :=
  match s.toList with
  | '-' :: cs => (decimal_value cs).map (fun q => -q)
  | cs => decimal_value cs

def refMasc : Masc where
  str_strip := ref_strip
  str_startswith := ref_startswith
  str_split := ref_split
  regex_search := ref_regex_search
  str_to_int := ref_to_int
  str_to_double := ref_to_double

/-! ## Formatting of the `set` command (`"set %i %.2f"`) -/

/-- Rounding to the nearest integer, ties to the even neighbour. -/
def round_half_even (x : ℚ) : Int :=
  let f : Int := ⌊x⌋
  let r : ℚ := x - f
  if r < 1 / 2 then f
  else if 1 / 2 < r then f + 1
  else if f % 2 = 0 then f else f + 1

/-- The conversion `%.2f` of `printf`. -/
def fmt_2f (q : ℚ) : String :=
  let n : Nat := (round_half_even (|q| * 100)).toNat
  let frac : Nat := n % 100
  (if q < 0 then "-" else "") ++ toString (n / 100) ++ "."
    ++ (if frac < 10 then "0" else "") ++ toString frac

/-- The text built by `init(Str, "set %i %.2f", channel, value)`. -/
def fmt_set (channel : Int) (value : ℚ) : String :=
  "set " ++ toString channel ++ " " ++ fmt_2f value

/-! ## Engine state -/

/-- What the engine does to its environment, in order. -/
inductive Event
  /-- The call `new(Serial, device, ...)`, with whether the line could be opened. -/
  | serial_new (is_open : Bool)
  /-- The call `serial_close(serial)`. -/
  | serial_close
  /-- The call `write(serial, cmd, strlen(cmd))`. -/
  | write (cmd : String)
  /-- A call `cb(err)` of an `adacom_connect_cb`. -/
  | connect_cb (cb : Nat) (err : AdaComError)
  /-- A call `cb(err, ch, value)` of an `adacom_channel_cb`. -/
  | channel_cb (cb : Nat) (err : AdaComError) (ch : Int) (value : ℚ)
  /-- A call `cb(err, values, n)` of an `adacom_channels_cb`; `values` are the
  first `n` entries of the array passed. -/
  | channels_cb (cb : Nat) (err : AdaComError) (values : List ℚ) (n : Int)
  deriving DecidableEq

/-- The file-scope variables of `adacom.c`. `serial` is whether the handle is
non-`NULL`; `com_wdog` is `none` for a `NULL` timer and `some p` for a timer
whose `pending` flag is `p`; `cmd_cb` is `none` for `NULL` and otherwise the
function pointer stored. -/
structure Engine where
  state : AdaComState
  serial : Bool
  com_wdog : Option Bool
  model : Option String
  sn : Option String
  def_attenuations : Option (List String)
  num_channels : Int
  attenuations : Int → ℚ
  cur_channel : Int
  cmd_cb : Option Nat
  conn_step : ConnectionStep
  cmd_id : CommandId
  req_attenuations : Int → ℚ
  trace : List Event

/-- The assignment `a[i] = v`. -/
def set_at (a : Int → ℚ) (i : Int) (v : ℚ) : Int → ℚ :=
  fun j => if j = i then v else a j

/-- The first `n` entries of an array. -/
def first_n (a : Int → ℚ) (n : Int) : List ℚ :=
  (List.range n.toNat).map (fun (i : Nat) => a (i : Int))

/-- The variables as initialised at program start. -/
def Engine.initial : Engine where
  state := ADACOM_STATE_UNKNOWN
  serial := false
  com_wdog := none
  model := none
  sn := none
  def_attenuations := none
  num_channels := 0
  attenuations := fun _ => 0
  cur_channel := 0
  cmd_cb := none
  conn_step := CONN_STEP_UNKNOWN
  cmd_id := COMMAND_UNKNOWN
  req_attenuations := fun _ => 0
  trace := []

def Engine.emit (s : Engine) (e : Event) : Engine :=
  { s with trace := s.trace ++ [e] }

/-! ## The functions of `adacom.c` -/

def adacom_init (s : Engine) : Engine :=
  { s with state := ADACOM_STATE_INITIALISED }

def reset_adainfos (s : Engine) : Engine :=
  { s with model := none, sn := none, def_attenuations := none, num_channels := 0 }

def change_state (s : Engine) (new_state : AdaComState) : Engine :=
  if s.state = new_state then s else { s with state := new_state }

/-- The function `start_com_wdog`: an existing timer is re-armed, a missing
one is created; either way a pending timer results. -/
def start_com_wdog (s : Engine) : Engine :=
  match s.com_wdog with
  | some _ => { s with com_wdog := some true }
  | none => { s with com_wdog := some true }

/-- The function `stop_com_wdog`: a cancelled timer is no longer pending; a
`NULL` timer has nothing to cancel. -/
def stop_com_wdog (s : Engine) : Engine :=
  { s with com_wdog := s.com_wdog.map (fun _ => false) }

def is_cmd_running (s : Engine) : Bool :=
  match s.com_wdog with
  | some pending => pending
  | none => false

def send_cmd (s : Engine) (cmd : String) : AdaComError × Engine :=
  if s.serial = false then (ADACOM_ERR_DEVICE_NOT_AVAILABLE, s)
  else if is_cmd_running s then (ADACOM_ERR_DEVICE_BUSY, s)
  else (ADACOM_OK, start_com_wdog (s.emit (Event.write cmd)))

/-- The function `call_cmd_cb`: the stored pointer is called with the
argument shape of the command identity; the call is recorded in the trace. -/
def call_cmd_cb (s : Engine) (err : AdaComError) : Engine :=
  match s.cmd_cb with
  | none => s
  | some cb =>
    if s.cmd_id = COMMAND_NONE then s.emit (Event.connect_cb cb err)
    else if s.cmd_id = COMMAND_SET then
      s.emit (Event.channel_cb cb err s.cur_channel (s.req_attenuations s.cur_channel))
    else if s.cmd_id = COMMAND_SET_ALL then
      s.emit (Event.channels_cb cb err (first_n s.req_attenuations s.num_channels)
        s.num_channels)
    else s

def com_wdog_cb (s : Engine) : Engine :=
  call_cmd_cb (change_state s ADACOM_STATE_ERROR) ADACOM_ERR_CMD_TIMEOUTED

/-- The event loop firing the watchdog: a timer that fires is no longer
pending, and its callback `com_wdog_cb` runs. A timer that is not pending
does not fire. -/
def wdog_expire (s : Engine) : Engine :=
  if is_cmd_running s then com_wdog_cb (stop_com_wdog s) else s

def complete_cmd (s : Engine) (err : AdaComError) : Engine :=
  let s := stop_com_wdog s
  let s := call_cmd_cb s err
  if !is_cmd_running s then { s with cmd_id := COMMAND_NONE, cmd_cb := none } else s

def process_get_infos (L : Masc) (s : Engine) (line : String) : Engine :=
  match L.str_split line ": " 2 with
  | [name, value] =>
    if name = "Model" then { s with model := some value }
    else if name = "SN" then { s with sn := some value }
    else if name = "Default Attenuations" then
      let toks := L.str_split value " " (-1)
      let s := { s with def_attenuations := some toks, num_channels := (toks.length : Int) }
      if s.num_channels > ADACOM_MAX_CHANNELS then
        complete_cmd (change_state s ADACOM_STATE_ERROR) ADACOM_ERR_DEVICE_NOT_SUPPORTED
      else s
    else if name = "DHCP" then
      if s.model ≠ none ∧ s.sn ≠ none ∧ s.num_channels > 0 then
        let s := stop_com_wdog s
        let s := (send_cmd s "status").2
        { s with cur_channel := 1, conn_step := CONN_STEP_GET_STATUS }
      else
        complete_cmd (change_state s ADACOM_STATE_ERROR) ADACOM_ERR_DEVICE_NOT_SUPPORTED
    else s
  | _ => s

def process_get_status (L : Masc) (s : Engine) (line : String) : Engine :=
  match L.regex_search regex_channel line with
  | none => s
  | some (g1, g2) =>
    match L.str_to_int g1, L.str_to_double g2 with
    | some channel, some value =>
      if channel ≥ 1 ∧ channel ≤ s.num_channels then
        let s :=
          if channel = s.cur_channel then
            { s with attenuations := set_at s.attenuations (channel - 1) value,
                     cur_channel := s.cur_channel + 1 }
          else s
        if s.cur_channel > s.num_channels then
          complete_cmd (change_state s ADACOM_STATE_CONNECTED) ADACOM_OK
        else s
      else s
    | _, _ => s

def process_connecting (L : Masc) (s : Engine) (line : String) : Engine :=
  if s.conn_step = CONN_STEP_GET_INFOS then process_get_infos L s line
  else if s.conn_step = CONN_STEP_GET_STATUS then process_get_status L s line
  else complete_cmd (change_state s ADACOM_STATE_ERROR) ADACOM_ERR_UNKONWN

/-- The loop of `skip_good_values` over the variables it reads, `fuel`
bounding the iterations left. -/
def skip_good_values_loop (num_channels : Int) (req_attenuations attenuations : Int → ℚ) :
    Nat → Int → Int
  | 0, ch => ch
  | fuel + 1, ch =>
    if ch < num_channels then
      if req_attenuations ch ≠ attenuations ch then ch
      else skip_good_values_loop num_channels req_attenuations attenuations fuel (ch + 1)
    else ch

/-- The function `skip_good_values`. Its loop runs at most
`num_channels - channel` times, so this fuel never runs out. -/
def skip_good_values (s : Engine) (channel : Int) : Int :=
  skip_good_values_loop s.num_channels s.req_attenuations s.attenuations
    (s.num_channels - channel).toNat channel

def process_cmd_set (L : Masc) (s : Engine) (line : String) : Engine :=
  match L.regex_search regex_set_resp line with
  | some (g1, g2) =>
    match L.str_to_int g1, L.str_to_double g2 with
    | some channel, some value =>
      if channel - 1 ≠ s.cur_channel then s
      else
        let s := stop_com_wdog s
        let s := { s with attenuations := set_at s.attenuations (channel - 1) value }
        if s.cmd_id = COMMAND_SET_ALL then
          let s := { s with cur_channel := s.cur_channel + 1 }
          let s := { s with cur_channel := skip_good_values s s.cur_channel }
          if s.cur_channel < s.num_channels then
            (send_cmd s (fmt_set (s.cur_channel + 1) (s.req_attenuations s.cur_channel))).2
          else complete_cmd s ADACOM_OK
        else complete_cmd s ADACOM_OK
    | _, _ => s
  | none =>
    if L.str_startswith line "Invalid command" then
      complete_cmd s (AdaComError.ofInt c_false)
    else s

def process_command (L : Masc) (s : Engine) (line : String) : Engine :=
  if s.cmd_id = COMMAND_SET ∨ s.cmd_id = COMMAND_SET_ALL then process_cmd_set L s line
  else if is_cmd_running s then s
  else s

def serial_line_cb (L : Masc) (s : Engine) (data : String) : Engine :=
  let line := L.str_strip data
  if line.length > 0 ∧ L.str_startswith line "--" = false
      ∧ L.str_startswith line "#" = false then
    if s.state = ADACOM_STATE_CONNECTING then process_connecting L s line
    else if s.state = ADACOM_STATE_CONNECTED then process_command L s line
    else s
  else s

def adacom_disconnect (s : Engine) : Engine :=
  if s.serial = false ∨ s.state ≠ ADACOM_STATE_CONNECTED then s
  else change_state { s.emit Event.serial_close with serial := false } ADACOM_STATE_DISCONNECTED

def serial_eof_cb (s : Engine) : Engine :=
  adacom_disconnect s

/-- The function `adacom_connect`; `is_open` is whether the serial line could
be opened. -/
def adacom_connect (s : Engine) (is_open : Bool) (state_cb : Option Nat) :
    AdaComError × Engine :=
  let s := { s.emit (Event.serial_new is_open) with serial := true }
  if !is_open then
    (ADACOM_ERR_DEVICE_NOT_FOUND, { change_state s ADACOM_STATE_ERROR with serial := false })
  else
    let s := change_state s ADACOM_STATE_CONNECTING
    let s := reset_adainfos s
    let s := { s with cmd_cb := state_cb, cmd_id := COMMAND_NONE }
    let s := { s with conn_step := CONN_STEP_GET_INFOS }
    (ADACOM_OK, (send_cmd s "info").2)

def adacom_get_channel (s : Engine) (ch : Int) : ℚ :=
  if ch < 0 ∨ ch > s.num_channels then -1 else s.attenuations ch

/-- Conversion of a `double` to `int`: the fractional part is discarded. -/
def double_to_int (x : ℚ) : Int :=
  if 0 ≤ x then ⌊x⌋ else ⌈x⌉

def validate_attenuation (value : ℚ) : ℚ :=
  let value :=
    if value > ADACOM_MAX_ATTENUATION then ADACOM_MAX_ATTENUATION
    else if value < ADACOM_MIN_ATTENUATION then ADACOM_MIN_ATTENUATION
    else value
  let a_int : Int := double_to_int value
  let a_remain : ℚ := value - a_int
  let ivals : Int := double_to_int (a_remain / ADACOM_MIN_INTERVAL)
  a_int + ivals * ADACOM_MIN_INTERVAL

def adacom_set_channel (s : Engine) (ch : Int) (value : ℚ) (ch_cb : Option Nat) :
    AdaComError × Engine :=
  if s.state ≠ ADACOM_STATE_CONNECTED then (ADACOM_ERR_NOT_CONNECTED, s)
  else if ch < 0 ∨ ch > s.num_channels then (ADACOM_ERR_INVALID_CHANNEL, s)
  else
    let s := { s with cur_channel := ch }
    let s := { s with req_attenuations :=
                 set_at s.req_attenuations s.cur_channel (validate_attenuation value) }
    let cmd := fmt_set (s.cur_channel + 1) (s.req_attenuations s.cur_channel)
    let s := { s with cmd_id := COMMAND_SET, cmd_cb := ch_cb }
    send_cmd s cmd

/-- The function `adacom_get_all`: the result and the entries written to
`values` (none on an error). -/
def adacom_get_all (s : Engine) (n : Int) : AdaComError × List ℚ :=
  if s.state ≠ ADACOM_STATE_CONNECTED then (ADACOM_ERR_NOT_CONNECTED, [])
  else if n ≠ s.num_channels then (ADACOM_ERR_NUM_CHANNELS, [])
  else (ADACOM_OK, first_n s.attenuations n)

/-- The loop `for (ch = 0; ch < n; ch++) req[ch] = validate(values[ch])`. -/
def save_requested (req values : Int → ℚ) (n : Int) : Int → ℚ :=
  (List.range n.toNat).foldl
    (fun (r : Int → ℚ) (ch : Nat) =>
      set_at r (ch : Int) (validate_attenuation (values (ch : Int)))) req

def adacom_set_all (s : Engine) (values : Int → ℚ) (n : Int) (chs_cb : Option Nat) :
    AdaComError × Engine :=
  if s.state ≠ ADACOM_STATE_CONNECTED then (ADACOM_ERR_NOT_CONNECTED, s)
  else if n ≠ s.num_channels then (ADACOM_ERR_NUM_CHANNELS, s)
  else
    let s := { s with req_attenuations := save_requested s.req_attenuations values n }
    let s := { s with cur_channel := skip_good_values s 0 }
    if s.cur_channel ≥ s.num_channels then (ADACOM_OK, s)
    else
      let cmd := fmt_set (s.cur_channel + 1) (s.req_attenuations s.cur_channel)
      let s := { s with cmd_id := COMMAND_SET_ALL, cmd_cb := chs_cb }
      (ADACOM_OK, (send_cmd s cmd).2)

/-! ## Vocabulary of the specification -/

/-- A received chunk `data` is processed: `serial_line_cb` does not drop it
as blank or as a comment. -/
def accepted (L : Masc) (data : String) : Prop :=
  (L.str_strip data).length > 0 ∧ L.str_startswith (L.str_strip data) "--" = false
    ∧ L.str_startswith (L.str_strip data) "#" = false

/-- An information line `name: value` of the handshake. -/
def is_info_line (L : Masc) (data name value : String) : Prop :=
  accepted L data ∧ L.str_split (L.str_strip data) ": " 2 = [name, value]

/-- A status line `Channel <channel>: <value>`. -/
def is_status_line (L : Masc) (data : String) (channel : Int) (value : ℚ) : Prop :=
  accepted L data ∧ ∃ g1 g2, L.regex_search regex_channel (L.str_strip data) = some (g1, g2)
    ∧ L.str_to_int g1 = some channel ∧ L.str_to_double g2 = some value

/-- A confirmation line `Channel <channel> ... set to <value>`. -/
def is_set_resp_line (L : Masc) (data : String) (channel : Int) (value : ℚ) : Prop :=
  accepted L data ∧ ∃ g1 g2, L.regex_search regex_set_resp (L.str_strip data) = some (g1, g2)
    ∧ L.str_to_int g1 = some channel ∧ L.str_to_double g2 = some value

/-- A rejection line: no confirmation pattern, begins with `Invalid command`. -/
def is_invalid_command_line (L : Masc) (data : String) : Prop :=
  accepted L data ∧ L.regex_search regex_set_resp (L.str_strip data) = none
    ∧ L.str_startswith (L.str_strip data) "Invalid command" = true

/-- Processing received lines one after the other. -/
def run_lines (L : Masc) (s : Engine) (lines : List String) : Engine :=
  lines.foldl (serial_line_cb L) s

/-- The clamping of a value to the attenuation range of the device. -/
def clamp_attenuation (v : ℚ) : ℚ :=
  max ADACOM_MIN_ATTENUATION (min v ADACOM_MAX_ATTENUATION)

/-! ## Concrete engines and inputs -/

/-- A two-entry array holding `a` and `b`. -/
def arr2 (a b : ℚ) : Int → ℚ :=
  fun i => if i = 0 then a else if i = 1 then b else 0

/-- A connected, idle engine on a two-channel device whose mirror is
`[10, 20]`, as the handshake leaves it. -/
def idle2 : Engine where
  state := ADACOM_STATE_CONNECTED
  serial := true
  com_wdog := some false
  model := some "AD-USB4AR36G95"
  sn := some "R1234"
  def_attenuations := some ["10", "20"]
  num_channels := 2
  attenuations := arr2 10 20
  cur_channel := 3
  cmd_cb := none
  conn_step := CONN_STEP_GET_STATUS
  cmd_id := COMMAND_NONE
  req_attenuations := fun _ => 0
  trace := []

/-- The engine `idle2` after `adacom_set_channel(0, 5, cb)` with the callback
7: a SetOne command for channel 0 is in flight. -/
def busy2 : Engine :=
  (adacom_set_channel idle2 0 5 (some 7)).2

/-- The engine `idle2` after `adacom_set_all([5, 5], 2, cb)` with the
callback 9. -/
def set_all_5_5 : Engine :=
  (adacom_set_all idle2 (arr2 5 5) 2 (some 9)).2

/-- The status lines `Channel k: v`, `Channel k+1: v'`, ... in order, each
paired with the value it reports. -/
def status_lines_from (L : Masc) : Int → List (String × ℚ) → Prop
  | _, [] => True
  | k, (data, v) :: rest => is_status_line L data k v ∧ status_lines_from L (k + 1) rest

/-- The status lines of a two-channel device reporting `[10, 20]`. -/
def status_10_20 : List (String × ℚ) :=
  [("Channel 1: 10.00\r\n", 10), ("Channel 2: 20.00\r\n", 20)]

/-- The engine after `adacom_init`, a successful `adacom_connect` with the
callback 3, and the handshake of a two-channel device reporting `[10, 20]`. -/
def handshake_10_20 : Engine :=
  run_lines refMasc (adacom_connect (adacom_init Engine.initial) true (some 3)).2
    (["Model: AD-USB4AR36G95\r\n", "SN: R1234\r\n", "Default Attenuations: 10 20\r\n",
      "DHCP: Disabled\r\n"] ++ status_10_20.map Prod.fst)

/-- The index at which `adacom_get_channel` reads the array `attenuations`:
`none` when it returns the sentinel without reading. -/
def adacom_get_channel_index (s : Engine) (ch : Int) : Option Int :=
  if ch < 0 ∨ ch > s.num_channels then none else some ch

/-- What can happen to the engine after `adacom_init`: a call of a public
operation that changes state, a received line, the expiry of the watchdog, or
the end of the stream. The getters change nothing and are left out. -/
inductive Op
  | connect (is_open : Bool) (state_cb : Option Nat)
  | disconnect
  | set_channel (ch : Int) (value : ℚ) (ch_cb : Option Nat)
  | set_all (values : Int → ℚ) (n : Int) (chs_cb : Option Nat)
  | line (data : String)
  | wdog
  | eof

/-- The engine after one event. -/
def Op.run (L : Masc) (s : Engine) : Op → Engine
  | Op.connect is_open state_cb => (adacom_connect s is_open state_cb).2
  | Op.disconnect => adacom_disconnect s
  | Op.set_channel ch value ch_cb => (adacom_set_channel s ch value ch_cb).2
  | Op.set_all values n chs_cb => (adacom_set_all s values n chs_cb).2
  | Op.line data => serial_line_cb L s data
  | Op.wdog => wdog_expire s
  | Op.eof => serial_eof_cb s

/-- The engine after a sequence of events. -/
def run_ops (L : Masc) (s : Engine) (ops : List Op) : Engine :=
  ops.foldl (Op.run L) s

/-- The engine states reachable from `adacom_init`. -/
def reachable (L : Masc) (s : Engine) : Prop :=
  ∃ ops : List Op, s = run_ops L (adacom_init Engine.initial) ops

/-- The engine after `adacom_init` and a successful `adacom_connect` with the
callback 3: Connecting, at step GetInfos. -/
def connecting0 : Engine :=
  (adacom_connect (adacom_init Engine.initial) true (some 3)).2

/-- A `Default Attenuations` line listing 17 values. -/
def line_17_channels : String :=
  "Default Attenuations: 0 0 0 0 0 0 0 0 0 0 0 0 0 0 0 0 0\r\n"

/-- The engine `busy2` after `adacom_disconnect`: the command that was in
flight is abandoned. -/
def disconnected_busy2 : Engine :=
  adacom_disconnect busy2

/-- The engine `disconnected_busy2` after a successful `adacom_connect` with
the callback 3. -/
def reconnected_busy2 : Engine :=
  (adacom_connect disconnected_busy2 true (some 3)).2

/-- The engine after `adacom_init`, a successful `adacom_connect` and a
`Default Attenuations` line listing 17 values. -/
def rejected_17 : Engine :=
  run_ops refMasc (adacom_init Engine.initial)
    [Op.connect true (some 3), Op.line line_17_channels]

/-- The bound on the channel count that the engine keeps: the count is never
negative, and outside state Error it is at most `ADACOM_MAX_CHANNELS`. -/
def num_channels_ok (s : Engine) : Prop :=
  0 ≤ s.num_channels ∧ (s.state ≠ ADACOM_STATE_ERROR → s.num_channels ≤ ADACOM_MAX_CHANNELS)

/-! ## Quantisation -/

theorem double_to_int_of_nonneg {x : ℚ} (h : 0 ≤ x) : double_to_int x = ⌊x⌋ := by
  simp [double_to_int, h]

theorem validate_attenuation_eq (v : ℚ) :
    validate_attenuation v = ((⌊clamp_attenuation v * 4⌋ : Int) : ℚ) / 4 := by
  have hc : validate_attenuation v =
      (double_to_int (clamp_attenuation v) : ℚ)
        + (double_to_int ((clamp_attenuation v - double_to_int (clamp_attenuation v))
            / ADACOM_MIN_INTERVAL) : ℚ) * ADACOM_MIN_INTERVAL := by
    unfold validate_attenuation clamp_attenuation ADACOM_MIN_ATTENUATION ADACOM_MAX_ATTENUATION
    by_cases h1 : v > 95
    · have : min v 95 = 95 := min_eq_right (le_of_lt h1)
      simp [h1, this]
    · by_cases h2 : v < 0
      · have h3 : min v 95 = v := min_eq_left (by linarith)
        have h4 : max 0 v = 0 := max_eq_left (le_of_lt h2)
        simp [h1, h2, h3, h4]
      · have h3 : min v 95 = v := min_eq_left (not_lt.mp h1)
        have h4 : max 0 v = v := max_eq_right (not_lt.mp h2)
        simp [h1, h2, h3, h4]
  have h0 : 0 ≤ clamp_attenuation v := le_max_left _ _
  rw [hc, double_to_int_of_nonneg h0]
  have hf : 0 ≤ (clamp_attenuation v - ⌊clamp_attenuation v⌋) / ADACOM_MIN_INTERVAL := by
    apply div_nonneg
    · exact sub_nonneg.mpr (Int.floor_le _)
    · norm_num [ADACOM_MIN_INTERVAL]
  rw [double_to_int_of_nonneg hf]
  have e : clamp_attenuation v * 4
      = (clamp_attenuation v - ⌊clamp_attenuation v⌋) / ADACOM_MIN_INTERVAL
        + ((⌊clamp_attenuation v⌋ * 4 : Int) : ℚ) := by
    simp only [ADACOM_MIN_INTERVAL]; push_cast; ring
  rw [e, Int.floor_add_int]
  simp only [ADACOM_MIN_INTERVAL]; push_cast; ring

/-- C6. Quantisation: for every rational `v`, `validate_attenuation v` is the
largest integer multiple of 0.25 that is at most `v` clamped to `[0, 95]`; so
it lies in `[0, 95]`, is a multiple of 0.25, is at most the clamped value and
less than 0.25 below it. Also `validate(95.37) = 95`, `validate(-3) = 0` and
`validate(10.6) = 10.5`. -/
theorem C6_validate_attenuation_quantises :
    (∀ v : ℚ,
      (∃ k : Int, validate_attenuation v = k * ADACOM_MIN_INTERVAL)
      ∧ validate_attenuation v ≤ clamp_attenuation v
      ∧ (∀ k : Int, (k : ℚ) * ADACOM_MIN_INTERVAL ≤ clamp_attenuation v →
          (k : ℚ) * ADACOM_MIN_INTERVAL ≤ validate_attenuation v)
      ∧ 0 ≤ validate_attenuation v ∧ validate_attenuation v ≤ 95
      ∧ clamp_attenuation v - validate_attenuation v < 1 / 4)
    ∧ validate_attenuation (9537 / 100) = 95
    ∧ validate_attenuation (-3) = 0
    ∧ validate_attenuation (106 / 10) = 21 / 2 := by
  refine ⟨fun v => ?_, by decide!, by decide!, by decide!⟩
  have h0 : 0 ≤ clamp_attenuation v := le_max_left _ _
  have h95 : clamp_attenuation v ≤ 95 := by
    unfold clamp_attenuation ADACOM_MIN_ATTENUATION ADACOM_MAX_ATTENUATION
    exact max_le (by norm_num) (min_le_right _ _)
  have hle : ((⌊clamp_attenuation v * 4⌋ : Int) : ℚ) ≤ clamp_attenuation v * 4 :=
    Int.floor_le _
  have hlt : clamp_attenuation v * 4 < ((⌊clamp_attenuation v * 4⌋ : Int) : ℚ) + 1 :=
    Int.lt_floor_add_one _
  have hnn : (0 : ℚ) ≤ ((⌊clamp_attenuation v * 4⌋ : Int) : ℚ) := by
    have : (0 : Int) ≤ ⌊clamp_attenuation v * 4⌋ := Int.floor_nonneg.mpr (by linarith)
    exact_mod_cast this
  rw [validate_attenuation_eq]
  refine ⟨⟨⌊clamp_attenuation v * 4⌋, ?_⟩, ?_, ?_, ?_, ?_, ?_⟩
  · simp only [ADACOM_MIN_INTERVAL]; ring
  · linarith
  · intro k hk
    have hk4 : (k : ℚ) ≤ clamp_attenuation v * 4 := by
      simp only [ADACOM_MIN_INTERVAL] at hk; linarith
    have : k ≤ ⌊clamp_attenuation v * 4⌋ := Int.le_floor.mpr hk4
    have hq : (k : ℚ) ≤ ((⌊clamp_attenuation v * 4⌋ : Int) : ℚ) := by exact_mod_cast this
    simp only [ADACOM_MIN_INTERVAL]; linarith
  · positivity
  · linarith
  · linarith

/-! ## The loop `skip_good_values` -/

theorem skip_good_values_loop_spec (n : Int) (req att : Int → ℚ) (fuel : Nat) (ch : Int)
    (hle : ch ≤ n) (hfuel : (n - ch).toNat ≤ fuel) :
    ch ≤ skip_good_values_loop n req att fuel ch
    ∧ skip_good_values_loop n req att fuel ch ≤ n
    ∧ (∀ i, ch ≤ i → i < skip_good_values_loop n req att fuel ch → req i = att i)
    ∧ (skip_good_values_loop n req att fuel ch < n →
        req (skip_good_values_loop n req att fuel ch)
          ≠ att (skip_good_values_loop n req att fuel ch)) := by
  induction fuel generalizing ch with
  | zero =>
    have : ch = n := by omega
    simp only [skip_good_values_loop]
    refine ⟨le_refl _, hle, fun i h1 h2 => absurd h2 (by omega), fun h => absurd h (by omega)⟩
  | succ k ih =>
    simp only [skip_good_values_loop]
    by_cases h1 : ch < n
    · by_cases h2 : req ch ≠ att ch
      · rw [if_pos h1, if_pos h2]
        exact ⟨le_refl _, hle, fun i h3 h4 => absurd h4 (by omega), fun _ => h2⟩
      · rw [if_pos h1, if_neg h2]
        obtain ⟨a, b, c, d⟩ := ih (ch + 1) (by omega) (by omega)
        refine ⟨by omega, b, fun i h3 h4 => ?_, d⟩
        by_cases hi : i = ch
        · subst hi; exact not_not.mp h2
        · exact c i (by omega) h4
    · rw [if_neg h1]
      exact ⟨le_refl _, hle, fun i h3 h4 => absurd h4 (by omega), fun h => absurd h h1⟩

/-! ## SetOne and SetAll -/

/-- C3. SetOne round trip: on a connected, idle engine with an open transport,
`adacom_set_channel(ch, v, cb)` with `0 ≤ ch < num_channels` returns
`ADACOM_OK`, writes exactly the command `set <ch+1> <q>` with
`q = validate_attenuation(v)`, stores `q` as the requested value of `ch` and
arms the watchdog; a confirmation line for channel `ch+1` with value `w`
processed next stops the watchdog, sets mirror entry `ch` to `w`, invokes `cb`
exactly once with `(ADACOM_OK, ch, q)` and leaves the engine idle (command
identity None, no callback stored, watchdog not pending). -/
theorem C3_set_channel_round_trip (L : Masc) (s : Engine) (ch : Int) (v w : ℚ) (cb : Nat)
    (data : String)
    (hstate : s.state = ADACOM_STATE_CONNECTED) (hserial : s.serial = true)
    (hidle : is_cmd_running s = false) (h0 : 0 ≤ ch) (hch : ch < s.num_channels)
    (hline : is_set_resp_line L data (ch + 1) w) :
    (adacom_set_channel s ch v (some cb)).1 = ADACOM_OK
    ∧ (adacom_set_channel s ch v (some cb)).2.trace
        = s.trace ++ [Event.write (fmt_set (ch + 1) (validate_attenuation v))]
    ∧ (adacom_set_channel s ch v (some cb)).2.req_attenuations
        = set_at s.req_attenuations ch (validate_attenuation v)
    ∧ is_cmd_running (adacom_set_channel s ch v (some cb)).2 = true
    ∧ is_cmd_running (serial_line_cb L (adacom_set_channel s ch v (some cb)).2 data) = false
    ∧ (serial_line_cb L (adacom_set_channel s ch v (some cb)).2 data).attenuations
        = set_at s.attenuations ch w
    ∧ (serial_line_cb L (adacom_set_channel s ch v (some cb)).2 data).trace
        = (adacom_set_channel s ch v (some cb)).2.trace
            ++ [Event.channel_cb cb ADACOM_OK ch (validate_attenuation v)]
    ∧ (serial_line_cb L (adacom_set_channel s ch v (some cb)).2 data).cmd_id = COMMAND_NONE
    ∧ (serial_line_cb L (adacom_set_channel s ch v (some cb)).2 data).cmd_cb = none
    ∧ (serial_line_cb L (adacom_set_channel s ch v (some cb)).2 data).state
        = ADACOM_STATE_CONNECTED := by
  obtain ⟨⟨ha1, ha2, ha3⟩, g1, g2, hre, hint, hdbl⟩ := hline
  have hnot : ¬ (ch < 0 ∨ ch > s.num_channels) := by omega
  have hset : adacom_set_channel s ch v (some cb)
      = (ADACOM_OK,
         { s with cur_channel := ch,
                  req_attenuations := set_at s.req_attenuations ch (validate_attenuation v),
                  cmd_id := COMMAND_SET, cmd_cb := some cb,
                  com_wdog := some true,
                  trace := s.trace
                    ++ [Event.write (fmt_set (ch + 1) (validate_attenuation v))] }) := by
    cases hw : s.com_wdog <;>
      simp_all [adacom_set_channel, send_cmd, is_cmd_running, start_com_wdog, Engine.emit, set_at]
  rw [hset]
  simp [serial_line_cb, process_command, process_cmd_set, complete_cmd, call_cmd_cb,
    stop_com_wdog, is_cmd_running, Engine.emit, ha1, ha2, ha3, hre, hint, hdbl, hstate, set_at]

/-- C3, at a concrete input: on `idle2`, setting channel 0 to 5.3 writes
`set 1 5.25`, and the confirmation `Channel 1 set to 5.25` invokes callback 7
once with `(ADACOM_OK, 0, 5.25)`. -/
theorem C3_set_channel_round_trip_witness :
    (adacom_set_channel idle2 0 (53 / 10) (some 7)).2.trace
        = idle2.trace ++ [Event.write (fmt_set (0 + 1) (validate_attenuation (53 / 10)))]
    ∧ (serial_line_cb refMasc (adacom_set_channel idle2 0 (53 / 10) (some 7)).2
          "Channel 1 set to 5.25\r\n").trace
        = (adacom_set_channel idle2 0 (53 / 10) (some 7)).2.trace
            ++ [Event.channel_cb 7 ADACOM_OK 0 (validate_attenuation (53 / 10))]
    ∧ fmt_set (0 + 1) (validate_attenuation (53 / 10)) = "set 1 5.25" := by
  have h := C3_set_channel_round_trip refMasc idle2 0 (53 / 10) (21 / 4) 7
    "Channel 1 set to 5.25\r\n" (by decide) (by decide) (by decide) (by decide) (by decide)
    ⟨⟨by decide, by decide, by decide⟩, "1", "5.25", by decide, by decide, by decide!⟩
  exact ⟨h.2.1, h.2.2.2.2.2.2.1, by decide!⟩

/-- C4. SetAll sequence step: on a connected engine (open transport) with
active command SetAll, a stored callback `cb` and cursor `c < num_channels`,
processing a confirmation line for channel `c+1` with value `w` stores `w` in
mirror entry `c` and moves the cursor to the least index `j > c` whose
requested value differs from its mirror value, or to `num_channels` when there
is none. If `j < num_channels` the engine writes `set <j+1> <req[j]>`, re-arms
the watchdog and invokes no callback (command identity and callback
unchanged); otherwise it invokes the callback exactly once with `ADACOM_OK`
and becomes idle. -/
theorem C4_set_all_step (L : Masc) (s : Engine) (w : ℚ) (cb : Nat) (data : String)
    (hstate : s.state = ADACOM_STATE_CONNECTED) (hserial : s.serial = true)
    (hid : s.cmd_id = COMMAND_SET_ALL) (hcb : s.cmd_cb = some cb)
    (hc : s.cur_channel < s.num_channels)
    (hline : is_set_resp_line L data (s.cur_channel + 1) w) :
    (serial_line_cb L s data).attenuations = set_at s.attenuations s.cur_channel w
    ∧ (serial_line_cb L s data).req_attenuations = s.req_attenuations
    ∧ (serial_line_cb L s data).num_channels = s.num_channels
    ∧ s.cur_channel < (serial_line_cb L s data).cur_channel
    ∧ (serial_line_cb L s data).cur_channel ≤ s.num_channels
    ∧ (∀ i, s.cur_channel < i → i < (serial_line_cb L s data).cur_channel →
        s.req_attenuations i = s.attenuations i)
    ∧ ((serial_line_cb L s data).cur_channel < s.num_channels →
        s.req_attenuations (serial_line_cb L s data).cur_channel
            ≠ s.attenuations (serial_line_cb L s data).cur_channel
        ∧ (serial_line_cb L s data).trace
            = s.trace ++ [Event.write (fmt_set ((serial_line_cb L s data).cur_channel + 1)
                (s.req_attenuations (serial_line_cb L s data).cur_channel))]
        ∧ is_cmd_running (serial_line_cb L s data) = true
        ∧ (serial_line_cb L s data).cmd_id = COMMAND_SET_ALL
        ∧ (serial_line_cb L s data).cmd_cb = some cb)
    ∧ ((serial_line_cb L s data).cur_channel = s.num_channels →
        (serial_line_cb L s data).trace
            = s.trace ++ [Event.channels_cb cb ADACOM_OK
                (first_n s.req_attenuations s.num_channels) s.num_channels]
        ∧ is_cmd_running (serial_line_cb L s data) = false
        ∧ (serial_line_cb L s data).cmd_id = COMMAND_NONE
        ∧ (serial_line_cb L s data).cmd_cb = none) := by
  obtain ⟨⟨ha1, ha2, ha3⟩, g1, g2, hre, hint, hdbl⟩ := hline
  obtain ⟨k1, k2, k3, k4⟩ := skip_good_values_loop_spec s.num_channels s.req_attenuations
    (set_at s.attenuations s.cur_channel w) (s.num_channels - (s.cur_channel + 1)).toNat
    (s.cur_channel + 1) (by omega) (le_refl _)
  generalize hjdef : skip_good_values_loop s.num_channels s.req_attenuations
    (set_at s.attenuations s.cur_channel w) (s.num_channels - (s.cur_channel + 1)).toNat
    (s.cur_channel + 1) = j at k1 k2 k3 k4
  have hatt : ∀ i, s.cur_channel < i →
      set_at s.attenuations s.cur_channel w i = s.attenuations i := by
    intro i hi
    simp [set_at, ne_of_gt hi]
  have hk3 : ∀ i, s.cur_channel < i → i < j → s.req_attenuations i = s.attenuations i := by
    intro i h1 h2
    rw [← hatt i h1]
    exact k3 i (by omega) h2
  by_cases hj : j < s.num_channels
  · have ht : serial_line_cb L s data
        = { s with attenuations := set_at s.attenuations s.cur_channel w,
                   cur_channel := j, com_wdog := some true,
                   trace := s.trace
                     ++ [Event.write (fmt_set (j + 1) (s.req_attenuations j))] } := by
      cases hw : s.com_wdog <;>
      simp [serial_line_cb, process_command, process_cmd_set, send_cmd, start_com_wdog,
        stop_com_wdog, is_cmd_running, Engine.emit, skip_good_values, ha1, ha2, ha3, hre, hint,
        hdbl, hstate, hid, hserial, hj, hw, hjdef]
    rw [ht]
    refine ⟨rfl, rfl, rfl, by show s.cur_channel < j; omega, k2, hk3, fun _ => ?_, fun h => ?_⟩
    · refine ⟨?_, rfl, rfl, hid, hcb⟩
      have := k4 hj
      rw [hatt _ (by omega)] at this
      exact this
    · exact absurd h (ne_of_lt hj)
  · have ht : serial_line_cb L s data
        = { s with attenuations := set_at s.attenuations s.cur_channel w,
                   cur_channel := j, com_wdog := s.com_wdog.map (fun _ => false),
                   cmd_id := COMMAND_NONE, cmd_cb := none,
                   trace := s.trace ++ [Event.channels_cb cb ADACOM_OK
                     (first_n s.req_attenuations s.num_channels) s.num_channels] } := by
      cases hw : s.com_wdog <;>
      simp [serial_line_cb, process_command, process_cmd_set, complete_cmd, call_cmd_cb,
        stop_com_wdog, is_cmd_running, Engine.emit, skip_good_values, ha1, ha2, ha3, hre, hint,
        hdbl, hstate, hid, hcb, hj, hw, hjdef]
    rw [ht]
    refine ⟨rfl, rfl, rfl, by show s.cur_channel < j; omega, k2, hk3, fun h => absurd h hj,
      fun _ => ⟨rfl, ?_, rfl, rfl⟩⟩
    cases hw : s.com_wdog <;> simp [is_cmd_running, hw]

/-- C4, the scenario of the specification: `SetAllChannels([5, 5])` on the
mirror `[10, 20]` writes `set 1 5.00`; the confirmation of channel 1 makes the
engine write `set 2 5.00` with the callback not yet invoked; the confirmation
of channel 2 invokes the callback once with `ADACOM_OK` and the mirror is
`[5, 5]`. -/
theorem C4_set_all_step_witness :
    (adacom_set_all idle2 (arr2 5 5) 2 (some 9)).1 = ADACOM_OK
    ∧ set_all_5_5.trace = [Event.write "set 1 5.00"]
    ∧ (serial_line_cb refMasc set_all_5_5 "Channel 1 set to 5.00\r\n").cmd_id = COMMAND_SET_ALL
    ∧ (serial_line_cb refMasc set_all_5_5 "Channel 1 set to 5.00\r\n").cmd_cb = some 9
    ∧ (run_lines refMasc set_all_5_5 ["Channel 1 set to 5.00\r\n"]).trace
        = [Event.write "set 1 5.00", Event.write "set 2 5.00"]
    ∧ (run_lines refMasc set_all_5_5
          ["Channel 1 set to 5.00\r\n", "Channel 2 set to 5.00\r\n"]).trace
        = [Event.write "set 1 5.00", Event.write "set 2 5.00",
            Event.channels_cb 9 ADACOM_OK [5, 5] 2]
    ∧ first_n (run_lines refMasc set_all_5_5
          ["Channel 1 set to 5.00\r\n", "Channel 2 set to 5.00\r\n"]).attenuations 2 = [5, 5]
    ∧ is_cmd_running (run_lines refMasc set_all_5_5
          ["Channel 1 set to 5.00\r\n", "Channel 2 set to 5.00\r\n"]) = false := by
  have h := C4_set_all_step refMasc set_all_5_5 5 9 "Channel 1 set to 5.00\r\n"
    (by decide!) (by decide!) (by decide!) (by decide!) (by decide!)
    ⟨⟨by decide, by decide, by decide⟩, "1", "5.00", by decide, by decide!, by decide!⟩
  have hlt : (serial_line_cb refMasc set_all_5_5 "Channel 1 set to 5.00\r\n").cur_channel
      < set_all_5_5.num_channels := by decide!
  exact ⟨by decide!, by decide!, (h.2.2.2.2.2.2.1 hlt).2.2.2.1, (h.2.2.2.2.2.2.1 hlt).2.2.2.2,
    by decide!, by decide!, by decide!, by decide!⟩

/-! ## SetAll: the requested values -/

theorem save_requested_apply (req values : Int → ℚ) (n i : Int) :
    save_requested req values n i
      = if 0 ≤ i ∧ i < n then validate_attenuation (values i) else req i := by
  have key : ∀ (k : Nat), (List.range k).foldl
      (fun (r : Int → ℚ) (ch : Nat) =>
        set_at r (ch : Int) (validate_attenuation (values (ch : Int)))) req i
      = if 0 ≤ i ∧ i < (k : Int) then validate_attenuation (values i) else req i := by
    intro k
    induction k with
    | zero =>
      have : ¬ (0 ≤ i ∧ i < 0) := by omega
      simp [this]
    | succ k ih =>
      rw [List.range_succ, List.foldl_append]
      simp only [List.foldl_cons, List.foldl_nil, set_at]
      by_cases hi : i = (k : Int)
      · subst hi
        have : (0 : Int) ≤ (k : Int) ∧ (k : Int) < ((k + 1 : Nat) : Int) := by omega
        simp [this]
      · rw [if_neg hi, ih]
        by_cases h1 : 0 ≤ i ∧ i < (k : Int)
        · have h2 : 0 ≤ i ∧ i < ((k + 1 : Nat) : Int) := by omega
          rw [if_pos h1, if_pos h2]
        · have h2 : ¬ (0 ≤ i ∧ i < ((k + 1 : Nat) : Int)) := by omega
          rw [if_neg h1, if_neg h2]
  unfold save_requested
  rw [key]
  by_cases h1 : 0 ≤ i ∧ i < n
  · have h2 : 0 ≤ i ∧ i < ((n.toNat : Nat) : Int) := by omega
    rw [if_pos h1, if_pos h2]
  · have h2 : ¬ (0 ≤ i ∧ i < ((n.toNat : Nat) : Int)) := by omega
    rw [if_neg h1, if_neg h2]

/-- When every requested value equals its mirror value, the scan from channel
0 ends at or beyond `num_channels`. -/
theorem skip_good_values_loop_all_good (n : Int) (req att : Int → ℚ)
    (h : ∀ i, 0 ≤ i → i < n → req i = att i) :
    n ≤ skip_good_values_loop n req att (n - 0).toNat 0 := by
  by_cases hn : 0 ≤ n
  · obtain ⟨a, b, c, d⟩ := skip_good_values_loop_spec n req att (n - 0).toNat 0 hn (le_refl _)
    by_contra hlt
    exact d (not_le.mp hlt) (h _ a (not_le.mp hlt))
  · have : (n - 0).toNat = 0 := by omega
    rw [this]
    simp only [skip_good_values_loop]
    omega

theorem adacom_set_all_all_good (s : Engine) (values : Int → ℚ) (cb : Option Nat)
    (hstate : s.state = ADACOM_STATE_CONNECTED)
    (hsame : ∀ i, 0 ≤ i → i < s.num_channels →
      validate_attenuation (values i) = s.attenuations i) :
    (adacom_set_all s values s.num_channels cb).1 = ADACOM_OK
    ∧ (adacom_set_all s values s.num_channels cb).2.trace = s.trace
    ∧ (adacom_set_all s values s.num_channels cb).2.com_wdog = s.com_wdog
    ∧ (adacom_set_all s values s.num_channels cb).2.cmd_cb = s.cmd_cb
    ∧ (adacom_set_all s values s.num_channels cb).2.cmd_id = s.cmd_id
    ∧ (adacom_set_all s values s.num_channels cb).2.attenuations = s.attenuations
    ∧ (adacom_set_all s values s.num_channels cb).2.state = ADACOM_STATE_CONNECTED := by
  have hgood := skip_good_values_loop_all_good s.num_channels
    (save_requested s.req_attenuations values s.num_channels) s.attenuations
    (fun i h0 h1 => by rw [save_requested_apply, if_pos ⟨h0, h1⟩]; exact hsame i h0 h1)
  rw [sub_zero] at hgood
  simp [adacom_set_all, skip_good_values, hstate, hgood]

/-- C10. SetAll with nothing to do: on a connected engine, when the validated
value of every entry `i < num_channels` of `values` equals the mirror value of
channel `i`, `adacom_set_all` returns `ADACOM_OK`, writes nothing and invokes
no callback (the trace is unchanged), does not arm the watchdog and does not
store the callback (command identity and stored callback are unchanged). -/
theorem C10_set_all_nothing_to_do (s : Engine) (values : Int → ℚ) (cb : Option Nat)
    (hstate : s.state = ADACOM_STATE_CONNECTED)
    (hsame : ∀ i, 0 ≤ i → i < s.num_channels →
      validate_attenuation (values i) = s.attenuations i) :
    (adacom_set_all s values s.num_channels cb).1 = ADACOM_OK
    ∧ (adacom_set_all s values s.num_channels cb).2.trace = s.trace
    ∧ (adacom_set_all s values s.num_channels cb).2.com_wdog = s.com_wdog
    ∧ (adacom_set_all s values s.num_channels cb).2.cmd_cb = s.cmd_cb
    ∧ (adacom_set_all s values s.num_channels cb).2.cmd_id = s.cmd_id
    ∧ (adacom_set_all s values s.num_channels cb).2.attenuations = s.attenuations
    ∧ (adacom_set_all s values s.num_channels cb).2.state = ADACOM_STATE_CONNECTED :=
  adacom_set_all_all_good s values cb hstate hsame

/-- C10, at a concrete input: on `idle2` (mirror `[10, 20]`) the request
`[10.1, 20.2]` validates to `[10, 20]`, and nothing is written. -/
theorem C10_set_all_nothing_to_do_witness :
    (adacom_set_all idle2 (arr2 (101 / 10) (202 / 10)) idle2.num_channels (some 9)).1 = ADACOM_OK
    ∧ (adacom_set_all idle2 (arr2 (101 / 10) (202 / 10)) idle2.num_channels (some 9)).2.trace
        = idle2.trace :=
  have h := C10_set_all_nothing_to_do idle2 (arr2 (101 / 10) (202 / 10)) (some 9) (by decide)
    (fun i h0 h1 => by
      have h2 : i < 2 := h1
      have hi : i = 0 ∨ i = 1 := by omega
      rcases hi with hi | hi <;> subst hi <;> decide!)
  ⟨h.1, h.2.1⟩

/-! ## Busy engine -/

/-- C1, counterexample: `busy2` is connected with the watchdog pending, and
`adacom_set_all` with `n = num_channels` and the values `[10, 20]` (equal to
the mirror) does not return `ADACOM_ERR_DEVICE_BUSY`: it returns `ADACOM_OK`. -/
theorem C1_set_all_busy_counterexample :
    busy2.state = ADACOM_STATE_CONNECTED ∧ busy2.serial = true
    ∧ is_cmd_running busy2 = true ∧ busy2.num_channels = 2
    ∧ (adacom_set_all busy2 (arr2 10 20) 2 (some 9)).1 = ADACOM_OK
    ∧ (adacom_set_all busy2 (arr2 10 20) 2 (some 9)).1 ≠ ADACOM_ERR_DEVICE_BUSY := by
  refine ⟨by decide!, by decide!, by decide!, by decide!, by decide!, by decide!⟩

/-- C1, amended. On a connected engine with an open transport and the watchdog
pending: `adacom_set_channel` with a channel it accepts
(`0 ≤ ch ≤ num_channels`) returns `ADACOM_ERR_DEVICE_BUSY` and writes nothing;
`adacom_set_all` with `n = num_channels` writes nothing and invokes no
callback, and returns `ADACOM_OK` when every validated value already equals
its mirror value. -/
theorem C1_busy_no_write (s : Engine)
    (hstate : s.state = ADACOM_STATE_CONNECTED) (hserial : s.serial = true)
    (hbusy : is_cmd_running s = true) :
    (∀ (ch : Int) (v : ℚ) (cb : Option Nat), 0 ≤ ch → ch ≤ s.num_channels →
        (adacom_set_channel s ch v cb).1 = ADACOM_ERR_DEVICE_BUSY
        ∧ (adacom_set_channel s ch v cb).2.trace = s.trace
        ∧ is_cmd_running (adacom_set_channel s ch v cb).2 = true)
    ∧ (∀ (values : Int → ℚ) (cb : Option Nat),
        (adacom_set_all s values s.num_channels cb).2.trace = s.trace
        ∧ is_cmd_running (adacom_set_all s values s.num_channels cb).2 = true
        ∧ ((∀ i, 0 ≤ i → i < s.num_channels →
              validate_attenuation (values i) = s.attenuations i) →
            (adacom_set_all s values s.num_channels cb).1 = ADACOM_OK)) := by
  have hw : s.com_wdog = some true := by
    cases h : s.com_wdog with
    | none => simp [is_cmd_running, h] at hbusy
    | some p => simp [is_cmd_running, h] at hbusy; rw [hbusy]
  constructor
  · intro ch v cb h0 h1
    have hnot : ¬ (ch < 0 ∨ ch > s.num_channels) := by omega
    simp [adacom_set_channel, send_cmd, is_cmd_running, hstate, hserial, hw, hnot]
  · intro values cb
    refine ⟨?_, ?_, fun hsame => (adacom_set_all_all_good s values cb hstate hsame).1⟩
    · simp only [adacom_set_all]
      split_ifs <;> simp [send_cmd, is_cmd_running, hserial, hw]
    · simp only [adacom_set_all]
      split_ifs <;> simp [send_cmd, is_cmd_running, hserial, hw]

/-- C1 amended, at a concrete input: on `busy2`, a second
`adacom_set_channel(1, 3, cb)` is refused with `ADACOM_ERR_DEVICE_BUSY`, and
neither it nor `adacom_set_all([7, 7])` writes anything. -/
theorem C1_busy_no_write_witness :
    (adacom_set_channel busy2 1 3 (some 9)).1 = ADACOM_ERR_DEVICE_BUSY
    ∧ (adacom_set_channel busy2 1 3 (some 9)).2.trace = busy2.trace
    ∧ (adacom_set_all busy2 (arr2 7 7) busy2.num_channels (some 9)).2.trace = busy2.trace :=
  have h := C1_busy_no_write busy2 (by decide!) (by decide!) (by decide!)
  ⟨(h.1 1 3 (some 9) (by decide) (by decide!)).1, (h.1 1 3 (some 9) (by decide) (by decide!)).2.1,
    (h.2 (arr2 7 7) (some 9)).1⟩

/-! ## Device rejection -/

/-- A rejection line completes the active SetOne or SetAll command with the
value of `false`, which is the enumerator `ADACOM_OK`. -/
theorem serial_line_cb_invalid_command (L : Masc) (s : Engine) (data : String)
    (hstate : s.state = ADACOM_STATE_CONNECTED)
    (hid : s.cmd_id = COMMAND_SET ∨ s.cmd_id = COMMAND_SET_ALL)
    (hline : is_invalid_command_line L data) :
    serial_line_cb L s data = complete_cmd s ADACOM_OK := by
  obtain ⟨⟨ha1, ha2, ha3⟩, hre, hinv⟩ := hline
  simp [serial_line_cb, process_command, process_cmd_set, ha1, ha2, ha3, hre, hinv, hstate, hid,
    AdaComError.ofInt, c_false]

/-- C2, the code at the failing input: `busy2` is connected with an active
SetOne command whose callback is 7; the line `Invalid command` does not match
the confirmation pattern and begins with `Invalid command`; processing it
invokes callback 7 with `ADACOM_OK`, the value of `false`, not with a failure
result. -/
theorem C2_invalid_command_completes_with_ok :
    busy2.state = ADACOM_STATE_CONNECTED ∧ busy2.cmd_id = COMMAND_SET ∧ busy2.cmd_cb = some 7
    ∧ refMasc.regex_search regex_set_resp (refMasc.str_strip "Invalid command\r\n") = none
    ∧ refMasc.str_startswith (refMasc.str_strip "Invalid command\r\n") "Invalid command" = true
    ∧ AdaComError.ofInt c_false = ADACOM_OK
    ∧ (serial_line_cb refMasc busy2 "Invalid command\r\n").trace
        = busy2.trace ++ [Event.channel_cb 7 ADACOM_OK 0 5] := by
  refine ⟨by decide!, by decide!, by decide!, by decide, by decide, by decide, by decide!⟩

/-! ## Channel range and busy rejection of `adacom_set_channel` -/

/-- C7, the code at the failing input: on `idle2` (two channels, valid indices
0 and 1) the call `adacom_set_channel(2, 5, cb)` is not rejected: it returns
`ADACOM_OK`, writes `set 3 5.00`, and overwrites the cursor, the requested
value at index 2, the command identity, the callback and the watchdog. -/
theorem C7_set_channel_accepts_num_channels :
    idle2.state = ADACOM_STATE_CONNECTED ∧ idle2.num_channels = 2
    ∧ (adacom_set_channel idle2 2 5 (some 7)).1 = ADACOM_OK
    ∧ (adacom_set_channel idle2 2 5 (some 7)).1 ≠ ADACOM_ERR_INVALID_CHANNEL
    ∧ (adacom_set_channel idle2 2 5 (some 7)).2.trace = idle2.trace ++ [Event.write "set 3 5.00"]
    ∧ (adacom_set_channel idle2 2 5 (some 7)).2.cur_channel = 2
    ∧ (adacom_set_channel idle2 2 5 (some 7)).2.req_attenuations 2 = 5
    ∧ idle2.req_attenuations 2 = 0
    ∧ (adacom_set_channel idle2 2 5 (some 7)).2.cmd_id = COMMAND_SET
    ∧ (adacom_set_channel idle2 2 5 (some 7)).2.cmd_cb = some 7
    ∧ is_cmd_running (adacom_set_channel idle2 2 5 (some 7)).2 = true := by
  refine ⟨by decide, by decide, by decide!, by decide!, by decide!, by decide!, by decide!,
    by decide!, by decide!, by decide!, by decide!⟩

/-- C8, the code at the failing input: `busy2` has a SetOne command for
channel 0 in flight with callback 7. The call `adacom_set_channel(1, 3, cb)`
with callback 9 returns `ADACOM_ERR_DEVICE_BUSY`, yet it stores callback 9,
moves the cursor to 1 and stores the requested value 3. The confirmation line
of the in-flight command (`Channel 1 set to 5.00`), which would have invoked
callback 7 with `ADACOM_OK`, is then dropped, and the watchdog expiry invokes
the rejected call's callback 9. -/
theorem C8_busy_set_channel_overwrites_command :
    busy2.state = ADACOM_STATE_CONNECTED ∧ is_cmd_running busy2 = true
    ∧ busy2.cmd_cb = some 7 ∧ busy2.cur_channel = 0
    ∧ (adacom_set_channel busy2 1 3 (some 9)).1 = ADACOM_ERR_DEVICE_BUSY
    ∧ (adacom_set_channel busy2 1 3 (some 9)).2.cmd_cb = some 9
    ∧ (adacom_set_channel busy2 1 3 (some 9)).2.cur_channel = 1
    ∧ (adacom_set_channel busy2 1 3 (some 9)).2.req_attenuations 1 = 3
    ∧ busy2.req_attenuations 1 = 0
    ∧ (serial_line_cb refMasc busy2 "Channel 1 set to 5.00\r\n").trace
        = busy2.trace ++ [Event.channel_cb 7 ADACOM_OK 0 5]
    ∧ (serial_line_cb refMasc (adacom_set_channel busy2 1 3 (some 9)).2
          "Channel 1 set to 5.00\r\n").trace = busy2.trace
    ∧ is_cmd_running (serial_line_cb refMasc (adacom_set_channel busy2 1 3 (some 9)).2
          "Channel 1 set to 5.00\r\n") = true
    ∧ (wdog_expire (serial_line_cb refMasc (adacom_set_channel busy2 1 3 (some 9)).2
          "Channel 1 set to 5.00\r\n")).trace
        = busy2.trace ++ [Event.channel_cb 9 ADACOM_ERR_CMD_TIMEOUTED 1 3] := by
  refine ⟨by decide!, by decide!, by decide!, by decide!, by decide!, by decide!, by decide!,
    by decide!, by decide!, by decide!, by decide!, by decide!, by decide!⟩

/-! ## Timeout -/

theorem serial_line_cb_error (L : Masc) (s : Engine) (data : String)
    (hstate : s.state = ADACOM_STATE_ERROR) : serial_line_cb L s data = s := by
  simp [serial_line_cb, hstate]

theorem run_lines_error (L : Masc) (s : Engine) (lines : List String)
    (hstate : s.state = ADACOM_STATE_ERROR) : run_lines L s lines = s := by
  induction lines with
  | nil => rfl
  | cons l ls ih =>
    show run_lines L (serial_line_cb L s l) ls = s
    rw [serial_line_cb_error L s l hstate]
    exact ih

/-- C9. Timeout: on a connected engine with a SetOne or SetAll command in
flight (watchdog pending, callback `cb` stored), the expiry of the watchdog
sets the state to Error and invokes `cb` exactly once, with
`ADACOM_ERR_CMD_TIMEOUTED`; whatever lines are processed afterwards, the
engine (its state and its trace of callback invocations) no longer changes. -/
theorem C9_timeout (L : Masc) (s : Engine) (cb : Nat) (lines : List String)
    (hstate : s.state = ADACOM_STATE_CONNECTED) (hbusy : is_cmd_running s = true)
    (hid : s.cmd_id = COMMAND_SET ∨ s.cmd_id = COMMAND_SET_ALL)
    (hcb : s.cmd_cb = some cb) :
    (wdog_expire s).state = ADACOM_STATE_ERROR
    ∧ (wdog_expire s).trace = s.trace ++
        [if s.cmd_id = COMMAND_SET then
           Event.channel_cb cb ADACOM_ERR_CMD_TIMEOUTED s.cur_channel
             (s.req_attenuations s.cur_channel)
         else
           Event.channels_cb cb ADACOM_ERR_CMD_TIMEOUTED
             (first_n s.req_attenuations s.num_channels) s.num_channels]
    ∧ run_lines L (wdog_expire s) lines = wdog_expire s := by
  have hw : s.com_wdog = some true := by
    cases h : s.com_wdog with
    | none => simp [is_cmd_running, h] at hbusy
    | some p => simp [is_cmd_running, h] at hbusy; rw [hbusy]
  have hst : (wdog_expire s).state = ADACOM_STATE_ERROR := by
    rcases hid with hid | hid <;>
      simp [wdog_expire, com_wdog_cb, call_cmd_cb, change_state, stop_com_wdog, is_cmd_running,
        Engine.emit, hstate, hw, hcb, hid]
  refine ⟨hst, ?_, run_lines_error L _ lines hst⟩
  · rcases hid with hid | hid <;>
      simp [wdog_expire, com_wdog_cb, call_cmd_cb, change_state, stop_com_wdog, is_cmd_running,
        Engine.emit, hstate, hw, hcb, hid]

/-- C9, at a concrete input: on `busy2` the expiry invokes callback 7 once
with `ADACOM_ERR_CMD_TIMEOUTED`, and a late confirmation changes nothing. -/
theorem C9_timeout_witness :
    (wdog_expire busy2).state = ADACOM_STATE_ERROR
    ∧ (wdog_expire busy2).trace = busy2.trace ++
        [if busy2.cmd_id = COMMAND_SET then
           Event.channel_cb 7 ADACOM_ERR_CMD_TIMEOUTED busy2.cur_channel
             (busy2.req_attenuations busy2.cur_channel)
         else
           Event.channels_cb 7 ADACOM_ERR_CMD_TIMEOUTED
             (first_n busy2.req_attenuations busy2.num_channels) busy2.num_channels]
    ∧ run_lines refMasc (wdog_expire busy2) ["Channel 1 set to 5.00\r\n"] = wdog_expire busy2 :=
  have h := C9_timeout refMasc busy2 7 ["Channel 1 set to 5.00\r\n"] (by decide!) (by decide!)
    (Or.inl (by decide!)) (by decide!)
  ⟨h.1, h.2.1, h.2.2⟩

/-! ## Handshake -/

theorem adacom_connect_opened (s : Engine) (cb : Option Nat) :
    (adacom_connect s true cb).1 = ADACOM_OK
    ∧ (adacom_connect s true cb).2.state = ADACOM_STATE_CONNECTING
    ∧ (adacom_connect s true cb).2.serial = true
    ∧ (adacom_connect s true cb).2.model = none
    ∧ (adacom_connect s true cb).2.sn = none
    ∧ (adacom_connect s true cb).2.num_channels = 0
    ∧ (adacom_connect s true cb).2.cmd_cb = cb
    ∧ (adacom_connect s true cb).2.cmd_id = COMMAND_NONE
    ∧ (adacom_connect s true cb).2.conn_step = CONN_STEP_GET_INFOS := by
  simp only [adacom_connect, send_cmd, change_state, reset_adainfos, Engine.emit, start_com_wdog]
  split_ifs <;> (try cases s.com_wdog) <;> simp_all

theorem serial_line_cb_model (L : Masc) (s : Engine) (data m : String)
    (hstate : s.state = ADACOM_STATE_CONNECTING) (hstep : s.conn_step = CONN_STEP_GET_INFOS)
    (hline : is_info_line L data "Model" m) :
    serial_line_cb L s data = { s with model := some m } := by
  obtain ⟨⟨ha1, ha2, ha3⟩, hsp⟩ := hline
  simp [serial_line_cb, process_connecting, process_get_infos, ha1, ha2, ha3, hsp, hstate, hstep]

theorem serial_line_cb_sn (L : Masc) (s : Engine) (data sn : String)
    (hstate : s.state = ADACOM_STATE_CONNECTING) (hstep : s.conn_step = CONN_STEP_GET_INFOS)
    (hline : is_info_line L data "SN" sn) :
    serial_line_cb L s data = { s with sn := some sn } := by
  obtain ⟨⟨ha1, ha2, ha3⟩, hsp⟩ := hline
  simp [serial_line_cb, process_connecting, process_get_infos, ha1, ha2, ha3, hsp, hstate, hstep]

theorem serial_line_cb_default_attenuations (L : Masc) (s : Engine) (data dflt : String)
    (hstate : s.state = ADACOM_STATE_CONNECTING) (hstep : s.conn_step = CONN_STEP_GET_INFOS)
    (hline : is_info_line L data "Default Attenuations" dflt)
    (hmax : ((L.str_split dflt " " (-1)).length : Int) ≤ ADACOM_MAX_CHANNELS) :
    serial_line_cb L s data
      = { s with def_attenuations := some (L.str_split dflt " " (-1)),
                 num_channels := ((L.str_split dflt " " (-1)).length : Int) } := by
  obtain ⟨⟨ha1, ha2, ha3⟩, hsp⟩ := hline
  have hnot : ¬ (((L.str_split dflt " " (-1)).length : Int) > ADACOM_MAX_CHANNELS) := not_lt.mpr hmax
  simp [serial_line_cb, process_connecting, process_get_infos, ha1, ha2, ha3, hsp, hstate, hstep,
    hnot]

theorem serial_line_cb_dhcp (L : Masc) (s : Engine) (data dh m sn : String)
    (hstate : s.state = ADACOM_STATE_CONNECTING) (hstep : s.conn_step = CONN_STEP_GET_INFOS)
    (hserial : s.serial = true) (hm : s.model = some m) (hsn : s.sn = some sn)
    (hnum : 0 < s.num_channels)
    (hline : is_info_line L data "DHCP" dh) :
    serial_line_cb L s data
      = { s with com_wdog := some true, trace := s.trace ++ [Event.write "status"],
                 cur_channel := 1, conn_step := CONN_STEP_GET_STATUS } := by
  obtain ⟨⟨ha1, ha2, ha3⟩, hsp⟩ := hline
  cases hw : s.com_wdog <;>
  simp [serial_line_cb, process_connecting, process_get_infos, send_cmd, stop_com_wdog,
    start_com_wdog, is_cmd_running, Engine.emit, ha1, ha2, ha3, hsp, hstate, hstep, hserial, hm,
    hsn, hnum, hw]

theorem serial_line_cb_status_next (L : Masc) (s : Engine) (data : String) (v : ℚ)
    (hstate : s.state = ADACOM_STATE_CONNECTING) (hstep : s.conn_step = CONN_STEP_GET_STATUS)
    (h1 : 1 ≤ s.cur_channel) (hlt : s.cur_channel < s.num_channels)
    (hline : is_status_line L data s.cur_channel v) :
    serial_line_cb L s data
      = { s with attenuations := set_at s.attenuations (s.cur_channel - 1) v,
                 cur_channel := s.cur_channel + 1 } := by
  obtain ⟨⟨ha1, ha2, ha3⟩, g1, g2, hre, hint, hdbl⟩ := hline
  have h2 : s.cur_channel ≤ s.num_channels := le_of_lt hlt
  have h3 : ¬ (s.cur_channel + 1 > s.num_channels) := by omega
  simp [serial_line_cb, process_connecting, process_get_status, ha1, ha2, ha3, hre, hint, hdbl,
    hstate, hstep, h1, h2, h3]

theorem serial_line_cb_status_last (L : Masc) (s : Engine) (data : String) (v : ℚ) (cb : Nat)
    (hstate : s.state = ADACOM_STATE_CONNECTING) (hstep : s.conn_step = CONN_STEP_GET_STATUS)
    (hcb : s.cmd_cb = some cb) (hid : s.cmd_id = COMMAND_NONE)
    (h1 : 1 ≤ s.cur_channel) (heq : s.cur_channel = s.num_channels)
    (hline : is_status_line L data s.cur_channel v) :
    serial_line_cb L s data
      = { s with attenuations := set_at s.attenuations (s.cur_channel - 1) v,
                 cur_channel := s.cur_channel + 1,
                 state := ADACOM_STATE_CONNECTED,
                 com_wdog := s.com_wdog.map (fun _ => false),
                 trace := s.trace ++ [Event.connect_cb cb ADACOM_OK],
                 cmd_id := COMMAND_NONE, cmd_cb := none } := by
  obtain ⟨⟨ha1, ha2, ha3⟩, g1, g2, hre, hint, hdbl⟩ := hline
  have h2 : s.cur_channel ≤ s.num_channels := le_of_eq heq
  have h3 : s.cur_channel + 1 > s.num_channels := by omega
  cases hw : s.com_wdog <;>
  simp [serial_line_cb, process_connecting, process_get_status, complete_cmd, call_cmd_cb,
    change_state, stop_com_wdog, is_cmd_running, Engine.emit, ha1, ha2, ha3, hre, hint, hdbl,
    hstate, hstep, hcb, hid, h1, h2, h3, hw]

theorem run_lines_status (L : Masc) (cb : Nat) (status : List (String × ℚ)) :
    ∀ (s : Engine), s.state = ADACOM_STATE_CONNECTING → s.conn_step = CONN_STEP_GET_STATUS →
      s.cmd_cb = some cb → s.cmd_id = COMMAND_NONE → 1 ≤ s.cur_channel →
      s.cur_channel + (status.length : Int) = s.num_channels + 1 → status ≠ [] →
      status_lines_from L s.cur_channel status →
      (run_lines L s (status.map Prod.fst)).state = ADACOM_STATE_CONNECTED
      ∧ (run_lines L s (status.map Prod.fst)).num_channels = s.num_channels
      ∧ (run_lines L s (status.map Prod.fst)).trace
          = s.trace ++ [Event.connect_cb cb ADACOM_OK]
      ∧ (∀ (k : Nat) (x : String × ℚ), status[k]? = some x →
          (run_lines L s (status.map Prod.fst)).attenuations (s.cur_channel - 1 + (k : Int))
            = x.2)
      ∧ (∀ i : Int, i < s.cur_channel - 1 →
          (run_lines L s (status.map Prod.fst)).attenuations i = s.attenuations i) := by
  induction status with
  | nil => intro s _ _ _ _ _ _ hne; exact absurd rfl hne
  | cons x rest ih =>
    intro s hstate hstep hcb hid h1 hlen _ hlines
    obtain ⟨d, v⟩ := x
    obtain ⟨hline, hrest⟩ := hlines
    have hrun : run_lines L s (((d, v) :: rest).map Prod.fst)
        = run_lines L (serial_line_cb L s d) (rest.map Prod.fst) := rfl
    rw [hrun]
    by_cases hnil : rest = []
    · subst hnil
      have heq : s.cur_channel = s.num_channels := by
        simp only [List.length_cons, List.length_nil] at hlen
        omega
      rw [serial_line_cb_status_last L s d v cb hstate hstep hcb hid h1 heq hline]
      refine ⟨rfl, rfl, rfl, ?_, ?_⟩
      · intro k y hk
        cases k with
        | zero =>
          simp only [List.getElem?_cons_zero, Option.some.injEq] at hk
          subst hk
          simp [run_lines, set_at]
        | succ k => simp at hk
      · intro i hi
        have : i ≠ s.cur_channel - 1 := ne_of_lt hi
        simp [run_lines, set_at, this]
    · have hlt : s.cur_channel < s.num_channels := by
        have : 0 < rest.length := List.length_pos.mpr hnil
        simp only [List.length_cons] at hlen
        push_cast at hlen
        omega
      rw [serial_line_cb_status_next L s d v hstate hstep h1 hlt hline]
      obtain ⟨a, b, c, e, f⟩ := ih
        { s with attenuations := set_at s.attenuations (s.cur_channel - 1) v,
                 cur_channel := s.cur_channel + 1 }
        hstate hstep hcb hid (by show 1 ≤ s.cur_channel + 1; omega)
        (by
          show s.cur_channel + 1 + (rest.length : Int) = s.num_channels + 1
          simp only [List.length_cons] at hlen
          push_cast at hlen
          omega)
        hnil hrest
      refine ⟨a, b, c, ?_, ?_⟩
      · intro k y hk
        cases k with
        | zero =>
          simp only [List.getElem?_cons_zero, Option.some.injEq] at hk
          subst hk
          have := f (s.cur_channel - 1) (by show s.cur_channel - 1 < s.cur_channel + 1 - 1; omega)
          simp only [Nat.cast_zero, add_zero]
          rw [this]
          simp [set_at]
        | succ k =>
          simp only [List.getElem?_cons_succ] at hk
          have := e k y hk
          have hidx : s.cur_channel - 1 + ((k + 1 : Nat) : Int)
              = s.cur_channel + 1 - 1 + (k : Int) := by push_cast; ring
          rw [hidx]
          exact this
      · intro i hi
        have := f i (by show i < s.cur_channel + 1 - 1; omega)
        rw [this]
        have hne : i ≠ s.cur_channel - 1 := ne_of_lt hi
        simp [set_at, hne]

theorem first_n_eq_of_getElem (a : Int → ℚ) (status : List (String × ℚ))
    (h : ∀ (k : Nat) (x : String × ℚ), status[k]? = some x → a (k : Int) = x.2) :
    first_n a (status.length : Int) = status.map Prod.snd := by
  apply List.ext_getElem
  · simp [first_n]
  · intro k h1 h2
    have hk : k < status.length := by simpa using h2
    simp only [first_n, List.getElem_map, List.getElem_range]
    exact h k status[k] (List.getElem?_eq_getElem hk)

/-- C5. Handshake success: starting right after a successful
`adacom_connect` with callback `cb`, when the engine processes in order a
`Model` line, an `SN` line, a `Default Attenuations` line with `N` tokens
(`1 ≤ N ≤ ADACOM_MAX_CHANNELS`), a `DHCP` line and the status lines
`Channel k: v_k` for `k = 1..N`, with no watchdog expiry, the state ends
Connected, `num_channels = N`, the connect callback has been invoked exactly
once, with `ADACOM_OK` (after the `status` command was written), and
`adacom_get_all` with `n = N` returns `ADACOM_OK` and `[v_1, ..., v_N]`. -/
theorem C5_handshake_success (L : Masc) (s t : Engine) (cb : Nat)
    (dModel dSN dDef dDHCP m sn dflt dh : String) (status : List (String × ℚ))
    (hModel : is_info_line L dModel "Model" m)
    (hSN : is_info_line L dSN "SN" sn)
    (hDef : is_info_line L dDef "Default Attenuations" dflt)
    (hN : (L.str_split dflt " " (-1)).length = status.length)
    (h1 : 1 ≤ status.length) (h16 : (status.length : Int) ≤ ADACOM_MAX_CHANNELS)
    (hDHCP : is_info_line L dDHCP "DHCP" dh)
    (hStatus : status_lines_from L 1 status)
    (ht : t = run_lines L (adacom_connect s true (some cb)).2
            ([dModel, dSN, dDef, dDHCP] ++ status.map Prod.fst)) :
    (adacom_connect s true (some cb)).1 = ADACOM_OK
    ∧ t.state = ADACOM_STATE_CONNECTED
    ∧ t.num_channels = (status.length : Int)
    ∧ t.trace = (adacom_connect s true (some cb)).2.trace
        ++ [Event.write "status", Event.connect_cb cb ADACOM_OK]
    ∧ adacom_get_all t (status.length : Int) = (ADACOM_OK, status.map Prod.snd) := by
  obtain ⟨c0, c1, c2, c3, c4, c5, c6, c7, c8⟩ := adacom_connect_opened s (some cb)
  generalize (adacom_connect s true (some cb)).2 = s0 at *
  have hrun : t = run_lines L
      (serial_line_cb L (serial_line_cb L (serial_line_cb L (serial_line_cb L s0 dModel) dSN)
        dDef) dDHCP) (status.map Prod.fst) := by
    rw [ht]; rfl
  rw [serial_line_cb_model L s0 dModel m c1 c8 hModel,
    serial_line_cb_sn L { s0 with model := some m } dSN sn c1 c8 hSN,
    serial_line_cb_default_attenuations L { s0 with model := some m, sn := some sn } dDef dflt
      c1 c8 hDef (by rw [hN]; exact h16),
    serial_line_cb_dhcp L
      { s0 with model := some m, sn := some sn,
                def_attenuations := some (L.str_split dflt " " (-1)),
                num_channels := ((L.str_split dflt " " (-1)).length : Int) }
      dDHCP dh m sn c1 c8 c2 rfl rfl
      (by show (0 : Int) < ((L.str_split dflt " " (-1)).length : Int); rw [hN]; omega) hDHCP]
    at hrun
  have hne : status ≠ [] := by
    intro h; rw [h] at h1; simp at h1
  have hrun2 : t = run_lines L
      { s0 with model := some m, sn := some sn,
                def_attenuations := some (L.str_split dflt " " (-1)),
                num_channels := ((L.str_split dflt " " (-1)).length : Int),
                com_wdog := some true, trace := s0.trace ++ [Event.write "status"],
                cur_channel := 1, conn_step := CONN_STEP_GET_STATUS }
      (status.map Prod.fst) := hrun
  obtain ⟨a, b, c, e, _⟩ := run_lines_status L cb status
    { s0 with model := some m, sn := some sn,
              def_attenuations := some (L.str_split dflt " " (-1)),
              num_channels := ((L.str_split dflt " " (-1)).length : Int),
              com_wdog := some true, trace := s0.trace ++ [Event.write "status"],
              cur_channel := 1, conn_step := CONN_STEP_GET_STATUS }
    c1 rfl c6 c7 (le_refl _)
    (by
      show (1 : Int) + (status.length : Int) = ((L.str_split dflt " " (-1)).length : Int) + 1
      rw [hN]; ring)
    hne hStatus
  rw [← hrun2] at a b c e
  have hnum : t.num_channels = (status.length : Int) := by
    rw [b]; show ((L.str_split dflt " " (-1)).length : Int) = _; rw [hN]
  refine ⟨c0, a, hnum, ?_, ?_⟩
  · rw [c]; simp
  · have hvals := first_n_eq_of_getElem t.attenuations status (fun k x hk => by
      have := e k x hk
      simpa using this)
    simp [adacom_get_all, a, hnum, hvals]

/-- C5, the scenario of the specification: default attenuations `10 20`, then
`Channel 1: 10.00` and `Channel 2: 20.00`: the state is Connected, the
callback was invoked once, and `adacom_get_all` returns `[10, 20]`. -/
theorem C5_handshake_success_witness :
    handshake_10_20.state = ADACOM_STATE_CONNECTED
    ∧ handshake_10_20.num_channels = 2
    ∧ handshake_10_20.trace
        = [Event.serial_new true, Event.write "info", Event.write "status",
            Event.connect_cb 3 ADACOM_OK]
    ∧ adacom_get_all handshake_10_20 2 = (ADACOM_OK, [10, 20]) := by
  have h := C5_handshake_success refMasc (adacom_init Engine.initial) handshake_10_20 3
    "Model: AD-USB4AR36G95\r\n" "SN: R1234\r\n" "Default Attenuations: 10 20\r\n"
    "DHCP: Disabled\r\n" "AD-USB4AR36G95" "R1234" "10 20" "Disabled" status_10_20
    ⟨⟨by decide, by decide, by decide⟩, by decide⟩
    ⟨⟨by decide, by decide, by decide⟩, by decide⟩
    ⟨⟨by decide, by decide, by decide⟩, by decide⟩
    (by decide) (by decide) (by decide)
    ⟨⟨by decide, by decide, by decide⟩, by decide⟩
    ⟨⟨⟨by decide, by decide, by decide⟩, "1", "10.00", by decide, by decide, by decide!⟩,
      ⟨⟨by decide, by decide, by decide⟩, "2", "20.00", by decide, by decide, by decide!⟩,
      trivial⟩
    rfl
  exact ⟨h.2.1, h.2.2.1, by decide!, h.2.2.2.2⟩

/-! ## Handshake rejection -/

/-- C11. Handshake rejection: in state Connecting at step GetInfos (command
identity None and the connect callback `cb` stored, as `adacom_connect` leaves
them), processing a `Default Attenuations` line whose value has more than
`ADACOM_MAX_CHANNELS` tokens drives the state to Error and invokes the connect
callback once with `ADACOM_ERR_DEVICE_NOT_SUPPORTED`; whatever lines are
processed afterwards, the step never becomes GetStatus and nothing (so no
`status` command) is written: the engine no longer changes. -/
theorem C11_handshake_rejection (L : Masc) (s : Engine) (cb : Nat) (data dflt : String)
    (lines : List String)
    (hstate : s.state = ADACOM_STATE_CONNECTING) (hstep : s.conn_step = CONN_STEP_GET_INFOS)
    (hid : s.cmd_id = COMMAND_NONE) (hcb : s.cmd_cb = some cb)
    (hline : is_info_line L data "Default Attenuations" dflt)
    (hmany : ADACOM_MAX_CHANNELS < ((L.str_split dflt " " (-1)).length : Int)) :
    (serial_line_cb L s data).state = ADACOM_STATE_ERROR
    ∧ (serial_line_cb L s data).trace
        = s.trace ++ [Event.connect_cb cb ADACOM_ERR_DEVICE_NOT_SUPPORTED]
    ∧ (serial_line_cb L s data).conn_step = CONN_STEP_GET_INFOS
    ∧ run_lines L (serial_line_cb L s data) lines = serial_line_cb L s data
    ∧ (run_lines L (serial_line_cb L s data) lines).conn_step ≠ CONN_STEP_GET_STATUS
    ∧ (run_lines L (serial_line_cb L s data) lines).trace
        = s.trace ++ [Event.connect_cb cb ADACOM_ERR_DEVICE_NOT_SUPPORTED] := by
  obtain ⟨⟨ha1, ha2, ha3⟩, hsp⟩ := hline
  have hgt : ((L.str_split dflt " " (-1)).length : Int) > ADACOM_MAX_CHANNELS := hmany
  have ht : serial_line_cb L s data
      = { s with def_attenuations := some (L.str_split dflt " " (-1)),
                 num_channels := ((L.str_split dflt " " (-1)).length : Int),
                 state := ADACOM_STATE_ERROR,
                 com_wdog := s.com_wdog.map (fun _ => false),
                 trace := s.trace ++ [Event.connect_cb cb ADACOM_ERR_DEVICE_NOT_SUPPORTED],
                 cmd_id := COMMAND_NONE, cmd_cb := none } := by
    cases hw : s.com_wdog <;>
    simp [serial_line_cb, process_connecting, process_get_infos, complete_cmd, call_cmd_cb,
      change_state, stop_com_wdog, is_cmd_running, Engine.emit, ha1, ha2, ha3, hsp, hstate,
      hstep, hid, hcb, hgt, hw]
  have hrun := run_lines_error L (serial_line_cb L s data) lines (by rw [ht])
  rw [hrun, ht]
  refine ⟨rfl, rfl, hstep, rfl, ?_, rfl⟩
  show s.conn_step ≠ CONN_STEP_GET_STATUS
  rw [hstep]; decide

/-- C11, at a concrete input: right after a successful connect, a line with 17
default attenuations is rejected, and a following `DHCP` line and status line
do not reach GetStatus. -/
theorem C11_handshake_rejection_witness :
    (serial_line_cb refMasc connecting0 line_17_channels).state = ADACOM_STATE_ERROR
    ∧ (serial_line_cb refMasc connecting0 line_17_channels).trace
        = connecting0.trace ++ [Event.connect_cb 3 ADACOM_ERR_DEVICE_NOT_SUPPORTED]
    ∧ (run_lines refMasc (serial_line_cb refMasc connecting0 line_17_channels)
          ["DHCP: Disabled\r\n", "Channel 1: 10.00\r\n"]).conn_step ≠ CONN_STEP_GET_STATUS :=
  have h := C11_handshake_rejection refMasc connecting0 3 line_17_channels
    "0 0 0 0 0 0 0 0 0 0 0 0 0 0 0 0 0" ["DHCP: Disabled\r\n", "Channel 1: 10.00\r\n"]
    (by decide) (by decide) (by decide) (by decide)
    ⟨⟨by decide, by decide, by decide⟩, by decide⟩ (by decide)
  ⟨h.1, h.2.1, h.2.2.2.2.1⟩

/-! ## Disconnect and end of stream -/

theorem adacom_disconnect_not_connected (s : Engine)
    (h : s.state ≠ ADACOM_STATE_CONNECTED) : adacom_disconnect s = s := by
  simp [adacom_disconnect, h]

theorem adacom_disconnect_connected (s : Engine)
    (hstate : s.state = ADACOM_STATE_CONNECTED) (hserial : s.serial = true) :
    adacom_disconnect s
      = { s with state := ADACOM_STATE_DISCONNECTED, serial := false,
                 trace := s.trace ++ [Event.serial_close] } := by
  simp [adacom_disconnect, change_state, Engine.emit, hstate, hserial]

theorem adacom_disconnect_idempotent (s : Engine) :
    adacom_disconnect (adacom_disconnect s) = adacom_disconnect s := by
  by_cases h : s.serial = false ∨ s.state ≠ ADACOM_STATE_CONNECTED
  · have e : adacom_disconnect s = s := by simp only [adacom_disconnect, if_pos h]
    rw [e, e]
  · have hs : s.state = ADACOM_STATE_CONNECTED := by
      by_contra hne; exact h (Or.inr hne)
    have hb : s.serial = true := by
      cases hser : s.serial with
      | true => rfl
      | false => exact absurd (Or.inl hser) h
    rw [adacom_disconnect_connected s hs hb]
    exact adacom_disconnect_not_connected _ (by show ADACOM_STATE_DISCONNECTED ≠ _; decide)

/-- C15. Disconnect is a no-op unless Connected: in a state that is
Initialised, Connecting, Disconnected or Error (any state other than
Connected), `adacom_disconnect` leaves the whole engine, its trace of
transport calls included, unchanged; from a Connected state with an open
transport it closes the transport (one `serial_close`, handle absent
afterwards) and sets the state to Disconnected, changing nothing else; and
calling it twice gives the same engine as calling it once. -/
theorem C15_disconnect_noop_unless_connected (s : Engine) :
    (s.state ≠ ADACOM_STATE_CONNECTED → adacom_disconnect s = s)
    ∧ (s.state = ADACOM_STATE_CONNECTED → s.serial = true →
        adacom_disconnect s
          = { s with state := ADACOM_STATE_DISCONNECTED, serial := false,
                     trace := s.trace ++ [Event.serial_close] })
    ∧ adacom_disconnect (adacom_disconnect s) = adacom_disconnect s :=
  ⟨adacom_disconnect_not_connected s, adacom_disconnect_connected s,
    adacom_disconnect_idempotent s⟩

/-- C15, at concrete inputs: in the Connecting engine `connecting0` a
disconnect changes nothing; in the Connected engine `idle2` it closes the
transport. -/
theorem C15_disconnect_noop_unless_connected_witness :
    adacom_disconnect connecting0 = connecting0
    ∧ adacom_disconnect idle2
        = { idle2 with state := ADACOM_STATE_DISCONNECTED, serial := false,
                       trace := idle2.trace ++ [Event.serial_close] }
    ∧ adacom_disconnect (adacom_disconnect idle2) = adacom_disconnect idle2 :=
  ⟨(C15_disconnect_noop_unless_connected connecting0).1 (by decide),
    (C15_disconnect_noop_unless_connected idle2).2.1 (by decide) (by decide),
    (C15_disconnect_noop_unless_connected idle2).2.2⟩

/-- C16, counterexample: `connecting0` is Connecting with an open transport,
and after the end-of-stream notification the transport is still open (the
serial handle is present, nothing was closed). -/
theorem C16_eof_while_connecting_counterexample :
    connecting0.state = ADACOM_STATE_CONNECTING ∧ connecting0.serial = true
    ∧ (serial_eof_cb connecting0).serial = true
    ∧ (serial_eof_cb connecting0).trace = connecting0.trace
    ∧ (serial_eof_cb connecting0).state = ADACOM_STATE_CONNECTING := by
  refine ⟨by decide, by decide, by decide, by decide, by decide⟩

/-- C16, amended. In a Connected state with an open transport the
end-of-stream notification takes the disconnect path: the transport is closed
(one `serial_close`, serial handle absent afterwards) and the state is
Disconnected. In a Connecting state the notification leaves the engine
unchanged. -/
theorem C16_eof_closes_when_connected (s : Engine) :
    (s.state = ADACOM_STATE_CONNECTED → s.serial = true →
        serial_eof_cb s = adacom_disconnect s
        ∧ (serial_eof_cb s).serial = false
        ∧ (serial_eof_cb s).state = ADACOM_STATE_DISCONNECTED
        ∧ (serial_eof_cb s).trace = s.trace ++ [Event.serial_close])
    ∧ (s.state = ADACOM_STATE_CONNECTING → serial_eof_cb s = s) := by
  constructor
  · intro hs hb
    have e : serial_eof_cb s = adacom_disconnect s := rfl
    rw [e, adacom_disconnect_connected s hs hb]
    exact ⟨rfl, rfl, rfl, rfl⟩
  · intro hs
    exact adacom_disconnect_not_connected s (by rw [hs]; decide)

/-- C16 amended, at concrete inputs: the end of the stream closes the
transport of the Connected engine `idle2` and leaves the Connecting engine
`connecting0` as it is. -/
theorem C16_eof_closes_when_connected_witness :
    (serial_eof_cb idle2).serial = false
    ∧ (serial_eof_cb idle2).state = ADACOM_STATE_DISCONNECTED
    ∧ serial_eof_cb connecting0 = connecting0 :=
  ⟨((C16_eof_closes_when_connected idle2).1 (by decide) (by decide)).2.1,
    ((C16_eof_closes_when_connected idle2).1 (by decide) (by decide)).2.2.1,
    (C16_eof_closes_when_connected connecting0).2 (by decide)⟩

/-! ## Reading a channel -/

/-- C14, the code at the failing input: on `idle2` (two channels, valid
indices 0 and 1) the call `adacom_get_channel(2)` does not return the sentinel
-1: it reads the mirror at index 2, outside `0 .. num_channels - 1`, and
returns what is stored there. With 16 channels the index read by
`adacom_get_channel(16)` is outside the capacity of the array. -/
theorem C14_get_channel_reads_at_num_channels :
    idle2.num_channels = 2
    ∧ adacom_get_channel idle2 2 = idle2.attenuations 2
    ∧ adacom_get_channel idle2 2 = 0
    ∧ adacom_get_channel idle2 2 ≠ -1
    ∧ adacom_get_channel_index idle2 2 = some 2
    ∧ adacom_get_channel_index { idle2 with num_channels := 16 } 16 = some 16
    ∧ ¬ ((16 : Int) < ADACOM_MAX_CHANNELS) := by
  refine ⟨by decide, by decide!, by decide!, by decide!, by decide, by decide, by decide⟩

/-! ## Connect -/

/-- C12, the code at the failing input: `busy2` (Connected, a SetOne command
in flight) is disconnected and then connected again with the transport
opening successfully. `adacom_connect` returns `ADACOM_OK` and the state is
Connecting with `num_channels = 0`, command identity None and step GetInfos,
but the command `info` has not been written: since the disconnect only the
transport was closed and opened (a first connect, as in `connecting0`, does
write `info`). The watchdog that is pending is the one of the abandoned
command, and its expiry fails the new connection. -/
theorem C12_reconnect_does_not_write_info :
    busy2.state = ADACOM_STATE_CONNECTED ∧ is_cmd_running busy2 = true
    ∧ disconnected_busy2.state = ADACOM_STATE_DISCONNECTED
    ∧ is_cmd_running disconnected_busy2 = true
    ∧ (adacom_connect disconnected_busy2 true (some 3)).1 = ADACOM_OK
    ∧ reconnected_busy2.state = ADACOM_STATE_CONNECTING
    ∧ reconnected_busy2.num_channels = 0
    ∧ reconnected_busy2.cmd_id = COMMAND_NONE
    ∧ reconnected_busy2.conn_step = CONN_STEP_GET_INFOS
    ∧ reconnected_busy2.trace
        = busy2.trace ++ [Event.serial_close, Event.serial_new true]
    ∧ Event.write "info" ∉ reconnected_busy2.trace
    ∧ connecting0.trace = [Event.serial_new true, Event.write "info"]
    ∧ (wdog_expire reconnected_busy2).state = ADACOM_STATE_ERROR
    ∧ (wdog_expire reconnected_busy2).trace
        = reconnected_busy2.trace ++ [Event.connect_cb 3 ADACOM_ERR_CMD_TIMEOUTED] := by
  refine ⟨by decide!, by decide!, by decide!, by decide!, by decide!, by decide!, by decide!,
    by decide!, by decide!, by decide!, by decide!, by decide!, by decide!, by decide!⟩

/-! ## The mirror changes only on a confirmation -/

theorem send_cmd_attenuations (s : Engine) (cmd : String) :
    (send_cmd s cmd).2.attenuations = s.attenuations := by
  simp only [send_cmd, start_com_wdog, Engine.emit]
  split_ifs <;> (try cases s.com_wdog) <;> rfl

theorem complete_cmd_attenuations (s : Engine) (err : AdaComError) :
    (complete_cmd s err).attenuations = s.attenuations := by
  simp only [complete_cmd, call_cmd_cb, stop_com_wdog, Engine.emit]
  cases s.cmd_cb <;> simp only [] <;> split_ifs <;> rfl

theorem adacom_set_channel_attenuations (s : Engine) (ch : Int) (v : ℚ) (cb : Option Nat) :
    (adacom_set_channel s ch v cb).2.attenuations = s.attenuations := by
  simp only [adacom_set_channel]
  split_ifs
  · rfl
  · rfl
  · rw [send_cmd_attenuations]

theorem adacom_set_all_attenuations (s : Engine) (values : Int → ℚ) (n : Int)
    (cb : Option Nat) :
    (adacom_set_all s values n cb).2.attenuations = s.attenuations := by
  simp only [adacom_set_all]
  split_ifs
  · rfl
  · rfl
  · rfl
  · rw [send_cmd_attenuations]

/-- A confirmation line for a channel other than `cur_channel + 1` is
dropped. -/
theorem serial_line_cb_other_channel (L : Masc) (s : Engine) (data : String) (k : Int)
    (w : ℚ) (hstate : s.state = ADACOM_STATE_CONNECTED)
    (hline : is_set_resp_line L data k w) (hk : k ≠ s.cur_channel + 1) :
    serial_line_cb L s data = s := by
  obtain ⟨⟨ha1, ha2, ha3⟩, g1, g2, hre, hint, hdbl⟩ := hline
  have hne : ¬ (k - 1 = s.cur_channel) := by omega
  simp only [serial_line_cb, process_command, process_cmd_set, ha1, ha2, ha3, hre, hint, hdbl,
    hstate]
  split_ifs <;> simp_all

/-- The mirror after a confirmation line for channel `cur_channel + 1` while
a SetOne or SetAll command is active. -/
theorem serial_line_cb_confirmation_attenuations (L : Masc) (s : Engine) (data : String)
    (w : ℚ) (hstate : s.state = ADACOM_STATE_CONNECTED)
    (hid : s.cmd_id = COMMAND_SET ∨ s.cmd_id = COMMAND_SET_ALL)
    (hline : is_set_resp_line L data (s.cur_channel + 1) w) :
    (serial_line_cb L s data).attenuations = set_at s.attenuations s.cur_channel w := by
  obtain ⟨⟨ha1, ha2, ha3⟩, g1, g2, hre, hint, hdbl⟩ := hline
  simp only [serial_line_cb, process_command, process_cmd_set, ha1, ha2, ha3, hre, hint, hdbl,
    hstate]
  simp only [hid, add_sub_cancel_right, ne_eq, not_true_eq_false, if_false, if_true,
    gt_iff_lt, and_self]
  split_ifs <;>
    first
      | rw [send_cmd_attenuations]
      | rw [complete_cmd_attenuations]
      | skip
  all_goals first | rfl | simp_all

/-- In state Connected a processed line leaves the mirror as it is unless a
SetOne or SetAll command is active and the line is a confirmation for channel
`cur_channel + 1`. -/
theorem serial_line_cb_attenuations_cases (L : Masc) (s : Engine) (data : String)
    (hstate : s.state = ADACOM_STATE_CONNECTED) :
    (serial_line_cb L s data).attenuations = s.attenuations
    ∨ ((s.cmd_id = COMMAND_SET ∨ s.cmd_id = COMMAND_SET_ALL)
        ∧ ∃ w, is_set_resp_line L data (s.cur_channel + 1) w
          ∧ (serial_line_cb L s data).attenuations = set_at s.attenuations s.cur_channel w) := by
  by_cases hacc : accepted L data
  · by_cases hid : s.cmd_id = COMMAND_SET ∨ s.cmd_id = COMMAND_SET_ALL
    · cases hre : L.regex_search regex_set_resp (L.str_strip data) with
      | none =>
        left
        obtain ⟨ha1, ha2, ha3⟩ := hacc
        have e : serial_line_cb L s data
            = if L.str_startswith (L.str_strip data) "Invalid command" = true then
                complete_cmd s (AdaComError.ofInt c_false) else s := by
          simp [serial_line_cb, process_command, process_cmd_set, ha1, ha2, ha3, hre, hstate,
            hid]
        rw [e]
        split_ifs
        · rw [complete_cmd_attenuations]
        · rfl
      | some g =>
        obtain ⟨g1, g2⟩ := g
        cases hint : L.str_to_int g1 with
        | none =>
          left
          obtain ⟨ha1, ha2, ha3⟩ := hacc
          simp [serial_line_cb, process_command, process_cmd_set, ha1, ha2, ha3, hre, hint,
            hstate, hid]
        | some k =>
          cases hdbl : L.str_to_double g2 with
          | none =>
            left
            obtain ⟨ha1, ha2, ha3⟩ := hacc
            simp [serial_line_cb, process_command, process_cmd_set, ha1, ha2, ha3, hre, hint,
              hdbl, hstate, hid]
          | some w =>
            have hline : is_set_resp_line L data k w := ⟨hacc, g1, g2, hre, hint, hdbl⟩
            by_cases hk : k = s.cur_channel + 1
            · right
              rw [hk] at hline
              exact ⟨hid, w, hline,
                serial_line_cb_confirmation_attenuations L s data w hstate hid hline⟩
            · left
              rw [serial_line_cb_other_channel L s data k w hstate hline hk]
    · left
      simp [serial_line_cb, process_command, hstate, hid]
  · left
    have : serial_line_cb L s data = s := by
      unfold accepted at hacc
      simp only [serial_line_cb]
      rw [if_neg hacc]
    rw [this]

/-- C13. The mirror is never updated speculatively: `adacom_set_channel` and
`adacom_set_all` leave every entry of the mirror unchanged whatever they
return; in state Connected a processed line changes the mirror only when a
SetOne or SetAll command is active and the line is a confirmation for channel
number `cur_channel + 1`, and then the mirror is the old one with entry
`cur_channel` set to the parsed value; a confirmation line for any other
channel number leaves the whole engine (mirror, cursor, command identity and
watchdog included) unchanged. -/
theorem C13_mirror_changes_only_on_confirmation (L : Masc) (s : Engine) :
    (∀ (ch : Int) (v : ℚ) (cb : Option Nat),
        (adacom_set_channel s ch v cb).2.attenuations = s.attenuations)
    ∧ (∀ (values : Int → ℚ) (n : Int) (cb : Option Nat),
        (adacom_set_all s values n cb).2.attenuations = s.attenuations)
    ∧ (s.state = ADACOM_STATE_CONNECTED → ∀ data : String,
        (serial_line_cb L s data).attenuations = s.attenuations
        ∨ ((s.cmd_id = COMMAND_SET ∨ s.cmd_id = COMMAND_SET_ALL)
            ∧ ∃ w, is_set_resp_line L data (s.cur_channel + 1) w
              ∧ (serial_line_cb L s data).attenuations
                  = set_at s.attenuations s.cur_channel w))
    ∧ (s.state = ADACOM_STATE_CONNECTED →
        (s.cmd_id = COMMAND_SET ∨ s.cmd_id = COMMAND_SET_ALL) →
        ∀ (data : String) (w : ℚ), is_set_resp_line L data (s.cur_channel + 1) w →
          (serial_line_cb L s data).attenuations = set_at s.attenuations s.cur_channel w)
    ∧ (s.state = ADACOM_STATE_CONNECTED →
        ∀ (data : String) (k : Int) (w : ℚ), is_set_resp_line L data k w →
          k ≠ s.cur_channel + 1 → serial_line_cb L s data = s) :=
  ⟨adacom_set_channel_attenuations s, adacom_set_all_attenuations s,
    fun hstate data => serial_line_cb_attenuations_cases L s data hstate,
    fun hstate hid data w hline =>
      serial_line_cb_confirmation_attenuations L s data w hstate hid hline,
    fun hstate data k w hline hk => serial_line_cb_other_channel L s data k w hstate hline hk⟩

/-- C13, at a concrete input: on `busy2` (SetOne for channel 0 in flight) a
confirmation for channel 2 changes nothing, and the confirmation for channel
1 sets mirror entry 0. -/
theorem C13_mirror_changes_only_on_confirmation_witness :
    serial_line_cb refMasc busy2 "Channel 2 set to 5.00\r\n" = busy2
    ∧ (serial_line_cb refMasc busy2 "Channel 1 set to 5.00\r\n").attenuations
        = set_at busy2.attenuations busy2.cur_channel 5
    ∧ (adacom_set_channel busy2 1 3 (some 9)).2.attenuations = busy2.attenuations :=
  have h := C13_mirror_changes_only_on_confirmation refMasc busy2
  ⟨h.2.2.2.2 (by decide!) "Channel 2 set to 5.00\r\n" 2 5
      ⟨⟨by decide, by decide, by decide⟩, "2", "5.00", by decide, by decide, by decide!⟩
      (by decide!),
    h.2.2.2.1 (by decide!) (Or.inl (by decide!)) "Channel 1 set to 5.00\r\n" 5
      ⟨⟨by decide, by decide, by decide⟩, "1", "5.00", by decide, by decide!, by decide!⟩,
    h.1 1 3 (some 9)⟩

/-! ## The channel count -/

/-- C17, the code at the failing input: after `adacom_init`, a successful
`adacom_connect` and a `Default Attenuations` line listing 17 values, the
engine is in state Error with `num_channels = 17`, above
`ADACOM_MAX_CHANNELS`: the count is stored before it is checked and is not
reset. Index 16 is below `num_channels` and outside the capacity of the
mirror, and `adacom_get_channel(16)` reads there. -/
theorem C17_num_channels_exceeds_capacity :
    reachable refMasc rejected_17
    ∧ rejected_17.state = ADACOM_STATE_ERROR
    ∧ rejected_17.num_channels = 17
    ∧ ¬ (rejected_17.num_channels ≤ ADACOM_MAX_CHANNELS)
    ∧ (16 : Int) < rejected_17.num_channels
    ∧ ¬ ((16 : Int) < ADACOM_MAX_CHANNELS)
    ∧ adacom_get_channel_index rejected_17 16 = some 16 := by
  refine ⟨⟨[Op.connect true (some 3), Op.line line_17_channels], rfl⟩, by decide, by decide,
    by decide, by decide, by decide, by decide⟩

/-! ### What holds of the channel count: the bound outside state Error -/

theorem change_state_state (s : Engine) (x : AdaComState) : (change_state s x).state = x := by
  unfold change_state
  split_ifs with h
  · exact h
  · rfl

theorem change_state_num_channels (s : Engine) (x : AdaComState) :
    (change_state s x).num_channels = s.num_channels := by
  unfold change_state
  split_ifs <;> rfl

theorem send_cmd_state (s : Engine) (cmd : String) : (send_cmd s cmd).2.state = s.state := by
  simp only [send_cmd, start_com_wdog, Engine.emit]
  split_ifs <;> (try cases s.com_wdog) <;> rfl

theorem send_cmd_num_channels (s : Engine) (cmd : String) :
    (send_cmd s cmd).2.num_channels = s.num_channels := by
  simp only [send_cmd, start_com_wdog, Engine.emit]
  split_ifs <;> (try cases s.com_wdog) <;> rfl

theorem call_cmd_cb_state (s : Engine) (err : AdaComError) :
    (call_cmd_cb s err).state = s.state := by
  simp only [call_cmd_cb, Engine.emit]
  cases s.cmd_cb with
  | none => rfl
  | some cb => simp only []; split_ifs <;> rfl

theorem call_cmd_cb_num_channels (s : Engine) (err : AdaComError) :
    (call_cmd_cb s err).num_channels = s.num_channels := by
  simp only [call_cmd_cb, Engine.emit]
  cases s.cmd_cb with
  | none => rfl
  | some cb => simp only []; split_ifs <;> rfl

theorem complete_cmd_state (s : Engine) (err : AdaComError) :
    (complete_cmd s err).state = s.state := by
  simp only [complete_cmd]
  split_ifs
  · show (call_cmd_cb (stop_com_wdog s) err).state = s.state
    rw [call_cmd_cb_state]; rfl
  · rw [call_cmd_cb_state]; rfl

theorem complete_cmd_num_channels (s : Engine) (err : AdaComError) :
    (complete_cmd s err).num_channels = s.num_channels := by
  simp only [complete_cmd]
  split_ifs
  · show (call_cmd_cb (stop_com_wdog s) err).num_channels = s.num_channels
    rw [call_cmd_cb_num_channels]; rfl
  · rw [call_cmd_cb_num_channels]; rfl

/-- An engine that ends in state Error with a count that is not negative
satisfies the bound. -/
theorem num_channels_ok_of_error (t : Engine) (hstate : t.state = ADACOM_STATE_ERROR)
    (hnum : 0 ≤ t.num_channels) : num_channels_ok t :=
  ⟨hnum, fun h => absurd hstate h⟩

/-- An engine with the count of `s`, and with the state of `s` or reached from
a state of `s` other than Error, satisfies the bound when `s` does. -/
theorem num_channels_ok_of_same (s t : Engine) (h : num_channels_ok s)
    (hnum : t.num_channels = s.num_channels)
    (hstate : t.state = s.state ∨ s.state ≠ ADACOM_STATE_ERROR) : num_channels_ok t := by
  refine ⟨by rw [hnum]; exact h.1, fun hne => ?_⟩
  rw [hnum]
  rcases hstate with hs | hs
  · exact h.2 (by rw [← hs]; exact hne)
  · exact h.2 hs

theorem adacom_connect_num_channels_ok (s : Engine) (is_open : Bool) (cb : Option Nat)
    (h : num_channels_ok s) : num_channels_ok (adacom_connect s is_open cb).2 := by
  cases is_open with
  | false =>
    apply num_channels_ok_of_error
    · simp only [adacom_connect]
      exact change_state_state _ _
    · simp only [adacom_connect]
      show (change_state _ ADACOM_STATE_ERROR).num_channels ≥ 0
      rw [change_state_num_channels]
      exact h.1
  | true =>
    have hn : (adacom_connect s true cb).2.num_channels = 0 := (adacom_connect_opened s cb).2.2.2.2.2.1
    exact ⟨by rw [hn], fun _ => by rw [hn]; decide⟩

theorem adacom_disconnect_num_channels_ok (s : Engine) (h : num_channels_ok s) :
    num_channels_ok (adacom_disconnect s) := by
  by_cases hc : s.serial = false ∨ s.state ≠ ADACOM_STATE_CONNECTED
  · have e : adacom_disconnect s = s := by simp only [adacom_disconnect, if_pos hc]
    rw [e]; exact h
  · have hs : s.state = ADACOM_STATE_CONNECTED := by
      by_contra hne; exact hc (Or.inr hne)
    apply num_channels_ok_of_same s _ h
    · simp only [adacom_disconnect, if_neg hc]
      rw [change_state_num_channels]; rfl
    · right; rw [hs]; decide

theorem adacom_set_channel_num_channels_ok (s : Engine) (ch : Int) (v : ℚ) (cb : Option Nat)
    (h : num_channels_ok s) : num_channels_ok (adacom_set_channel s ch v cb).2 := by
  apply num_channels_ok_of_same s _ h
  · simp only [adacom_set_channel]
    split_ifs
    · rfl
    · rfl
    · rw [send_cmd_num_channels]
  · left
    simp only [adacom_set_channel]
    split_ifs
    · rfl
    · rfl
    · rw [send_cmd_state]

theorem adacom_set_all_num_channels_ok (s : Engine) (values : Int → ℚ) (n : Int)
    (cb : Option Nat) (h : num_channels_ok s) :
    num_channels_ok (adacom_set_all s values n cb).2 := by
  apply num_channels_ok_of_same s _ h
  · simp only [adacom_set_all]
    split_ifs
    · rfl
    · rfl
    · rfl
    · rw [send_cmd_num_channels]
  · left
    simp only [adacom_set_all]
    split_ifs
    · rfl
    · rfl
    · rfl
    · rw [send_cmd_state]

theorem wdog_expire_num_channels_ok (s : Engine) (h : num_channels_ok s) :
    num_channels_ok (wdog_expire s) := by
  unfold wdog_expire
  split_ifs
  · apply num_channels_ok_of_error
    · simp only [com_wdog_cb]
      rw [call_cmd_cb_state, change_state_state]
    · simp only [com_wdog_cb]
      rw [call_cmd_cb_num_channels, change_state_num_channels]
      exact h.1
  · exact h

/-- Completing a command in state Error keeps the bound. -/
theorem complete_cmd_error_num_channels_ok (s : Engine) (err : AdaComError)
    (hnum : 0 ≤ s.num_channels) :
    num_channels_ok (complete_cmd (change_state s ADACOM_STATE_ERROR) err) := by
  apply num_channels_ok_of_error
  · rw [complete_cmd_state, change_state_state]
  · rw [complete_cmd_num_channels, change_state_num_channels]
    exact hnum

theorem process_get_infos_num_channels_ok (L : Masc) (s : Engine) (line : String)
    (h : num_channels_ok s) : num_channels_ok (process_get_infos L s line) := by
  unfold process_get_infos
  split
  next name value _ =>
    by_cases h1 : name = "Model"
    · rw [if_pos h1]; exact h
    · rw [if_neg h1]
      by_cases h2 : name = "SN"
      · rw [if_pos h2]; exact h
      · rw [if_neg h2]
        by_cases h3 : name = "Default Attenuations"
        · rw [if_pos h3]
          dsimp only
          split_ifs with h4
          · exact complete_cmd_error_num_channels_ok _ _ (Int.natCast_nonneg _)
          · exact ⟨Int.natCast_nonneg _, fun _ => not_lt.mp h4⟩
        · rw [if_neg h3]
          by_cases h4 : name = "DHCP"
          · rw [if_pos h4]
            split_ifs
            · apply num_channels_ok_of_same s _ h
              · show (send_cmd (stop_com_wdog s) "status").2.num_channels = s.num_channels
                rw [send_cmd_num_channels]; rfl
              · left
                show (send_cmd (stop_com_wdog s) "status").2.state = s.state
                rw [send_cmd_state]; rfl
            · exact complete_cmd_error_num_channels_ok _ _ h.1
          · rw [if_neg h4]; exact h
  next => exact h

theorem process_get_status_num_channels_ok (L : Masc) (s : Engine) (line : String)
    (hstate : s.state = ADACOM_STATE_CONNECTING)
    (h : num_channels_ok s) : num_channels_ok (process_get_status L s line) := by
  have hne : s.state ≠ ADACOM_STATE_ERROR := by rw [hstate]; decide
  unfold process_get_status
  split
  next => exact h
  next g1 g2 _ =>
    split
    next channel value _ _ =>
      by_cases hr : channel ≥ 1 ∧ channel ≤ s.num_channels
      · rw [if_pos hr]
        by_cases hc : channel = s.cur_channel
        · rw [if_pos hc]
          dsimp only
          split_ifs
          · apply num_channels_ok_of_same s _ h
            · rw [complete_cmd_num_channels, change_state_num_channels]
            · exact Or.inr hne
          · exact h
        · rw [if_neg hc]
          dsimp only
          split_ifs
          · apply num_channels_ok_of_same s _ h
            · rw [complete_cmd_num_channels, change_state_num_channels]
            · exact Or.inr hne
          · exact h
      · rw [if_neg hr]; exact h
    next => exact h

theorem process_cmd_set_num_channels_ok (L : Masc) (s : Engine) (line : String)
    (h : num_channels_ok s) : num_channels_ok (process_cmd_set L s line) := by
  unfold process_cmd_set
  split
  next g1 g2 _ =>
    split
    next channel value _ _ =>
      by_cases hc : channel - 1 ≠ s.cur_channel
      · rw [if_pos hc]; exact h
      · rw [if_neg hc]
        dsimp only
        split_ifs
        · apply num_channels_ok_of_same s _ h
          · rw [send_cmd_num_channels]; rfl
          · left; rw [send_cmd_state]; rfl
        · apply num_channels_ok_of_same s _ h
          · rw [complete_cmd_num_channels]; rfl
          · left; rw [complete_cmd_state]; rfl
        · apply num_channels_ok_of_same s _ h
          · rw [complete_cmd_num_channels]; rfl
          · left; rw [complete_cmd_state]; rfl
    next => exact h
  next =>
    split_ifs
    · apply num_channels_ok_of_same s _ h
      · rw [complete_cmd_num_channels]
      · left; rw [complete_cmd_state]
    · exact h

theorem serial_line_cb_num_channels_ok (L : Masc) (s : Engine) (data : String)
    (h : num_channels_ok s) : num_channels_ok (serial_line_cb L s data) := by
  unfold serial_line_cb
  dsimp only
  split_ifs with ha hconnecting hconnected
  · unfold process_connecting
    split_ifs
    · exact process_get_infos_num_channels_ok L s _ h
    · exact process_get_status_num_channels_ok L s _ hconnecting h
    · exact complete_cmd_error_num_channels_ok _ _ h.1
  · unfold process_command
    split_ifs
    · exact process_cmd_set_num_channels_ok L s _ h
    · exact h
    · exact h
  · exact h
  · exact h

theorem Op_run_num_channels_ok (L : Masc) (s : Engine) (op : Op) (h : num_channels_ok s) :
    num_channels_ok (Op.run L s op) := by
  cases op with
  | connect is_open cb => exact adacom_connect_num_channels_ok s is_open cb h
  | disconnect => exact adacom_disconnect_num_channels_ok s h
  | set_channel ch v cb => exact adacom_set_channel_num_channels_ok s ch v cb h
  | set_all values n cb => exact adacom_set_all_num_channels_ok s values n cb h
  | line data => exact serial_line_cb_num_channels_ok L s data h
  | wdog => exact wdog_expire_num_channels_ok s h
  | eof => exact adacom_disconnect_num_channels_ok s h

theorem run_ops_num_channels_ok (L : Masc) (ops : List Op) :
    ∀ s : Engine, num_channels_ok s → num_channels_ok (run_ops L s ops) := by
  induction ops with
  | nil => intro s h; exact h
  | cons op rest ih =>
    intro s h
    exact ih (Op.run L s op) (Op_run_num_channels_ok L s op h)

/-- The part of the channel-count bound that the code keeps: in every engine
state reachable from `adacom_init`, `num_channels` is not negative, and in
every reachable state other than Error it is at most `ADACOM_MAX_CHANNELS`. -/
theorem reachable_num_channels_ok (L : Masc) (s : Engine) (h : reachable L s) :
    0 ≤ s.num_channels
    ∧ (s.state ≠ ADACOM_STATE_ERROR → s.num_channels ≤ ADACOM_MAX_CHANNELS) := by
  obtain ⟨ops, rfl⟩ := h
  exact run_ops_num_channels_ok L ops (adacom_init Engine.initial)
    ⟨by decide, fun _ => by decide⟩

/-- When no watchdog is pending, a successful `adacom_connect` writes `info`
and arms the watchdog. -/
theorem adacom_connect_writes_info (s : Engine) (cb : Option Nat)
    (hidle : is_cmd_running s = false) :
    (adacom_connect s true cb).2.trace
        = s.trace ++ [Event.serial_new true, Event.write "info"]
    ∧ is_cmd_running (adacom_connect s true cb).2 = true := by
  cases hw : s.com_wdog with
  | none =>
    simp [adacom_connect, send_cmd, change_state, reset_adainfos, Engine.emit, start_com_wdog,
      is_cmd_running, hw]
    split_ifs <;> simp_all
  | some p =>
    have hp : p = false := by simpa [is_cmd_running, hw] using hidle
    subst hp
    simp [adacom_connect, send_cmd, change_state, reset_adainfos, Engine.emit, start_com_wdog,
      is_cmd_running, hw]
    split_ifs <;> simp_all

end Adacom
